import Mathlib

/-!
Formal model of the Dark Knight Phantom SIEM detection engine
(`backend/apps/detection/engine.py`) and PQL engine
(`backend/apps/query/pql_engine.py`), as a shallow embedding.

Conventions of the embedding:
* `datetime` instants and `timedelta`s are integers counting seconds
  (`timedelta(minutes=m)` is `60*m`, `timedelta(hours=1)` is `3600`).
  All instants are absolute ("timezone-aware"); Python's
  `timezone.is_naive` re-check is therefore the identity here.
* Django model rows live in plain Lean lists; primary-key identity is an
  explicit `id` field where the code needs it.  `QuerySet.filter(...)` on
  those lists is list filtering; `.first()` is the first list element
  (creation order, matching the unordered-query behavior modelled here).
* Optional text fields are `String`, with `""` playing the role of both
  Python `None` and the empty string — the source only ever distinguishes
  them by truthiness (`if not user_name`, `event.user_name or ...`), under
  which the two coincide.
* Python dicts that the code uses as finite maps (`event_counts`,
  `unique_values`, suppression `conditions`, ...) are association lists.
-/

namespace DKP

/-!
String primitives, re-implemented by structural recursion on the
character list so that every definition evaluates by kernel reduction
(the standard library's byte-position-based versions do not). -/

/-- `s` starts with pattern `p` (on character lists). -/
def charsStartWith : List Char → List Char → Bool
  | _, [] => true
  | [], _ :: _ => false
  | a :: as, b :: bs => a == b && charsStartWith as bs

/-- `s` contains pattern `p` somewhere (on character lists). -/
def charsContain : List Char → List Char → Bool
  | [], p => p.isEmpty
  | s@(_ :: rest), p => charsStartWith s p || charsContain rest p

/-- Python's substring test `needle in hay` (`str.__contains__`). -/
def strContains (hay needle : String) : Bool :=
  charsContain hay.data needle.data

/-- Python `str.startswith`. -/
def pyStartsWith (s p : String) : Bool := charsStartWith s.data p.data

/-- Python `str.endswith`. -/
def pyEndsWith (s p : String) : Bool :=
  charsStartWith s.data.reverse p.data.reverse

/-- Python `str.lower` (ASCII). -/
def pyLower (s : String) : String := ⟨s.data.map Char.toLower⟩

/-- Python `str.upper` (ASCII). -/
def pyUpper (s : String) : String := ⟨s.data.map Char.toUpper⟩

/-- Python `str.strip()` with no arguments (whitespace at both ends). -/
def pyStrip (s : String) : String :=
  ⟨((s.data.dropWhile Char.isWhitespace).reverse.dropWhile Char.isWhitespace).reverse⟩

/-- Python `s[-1]` (only used on non-empty strings). -/
def pyLastChar (s : String) : Char := s.data.getLastD 'a'

/-- Python `s[:-1]`. -/
def pyDropLast (s : String) : String := ⟨s.data.dropLast⟩

/-- Split a character list on a separator character (like
`str.split(sep)` for a one-character separator). -/
def splitOnChar (c : Char) : List Char → List (List Char)
  | [] => [[]]
  | x :: xs =>
      match splitOnChar c xs with
      | [] => [[]]
      | h :: t => if x == c then [] :: h :: t else (x :: h) :: t

/-- Replace every occurrence of a single character by a replacement
string (`str.replace` for a one-character pattern). -/
def replaceCharWith (c : Char) (rep : List Char) (l : List Char) : List Char :=
  l.foldr (fun x acc => if x == c then rep ++ acc else x :: acc) []

/-- Python truthiness of an (optional) string: `None` and `''` are falsy. -/
def pyTruthy (s : String) : Bool := !s.data.isEmpty

/-!
A small regular-expression matcher covering the literal / `.` / `*`
fragment of Python `re`.  The engine only uses `re.match` (anchored
prefix match) and `re.search` (match anywhere) with `re.IGNORECASE` on
administrator-supplied patterns; this matcher models those two entry
points for patterns built from literal characters, `.` and postfix `*`.
Other metacharacters are treated as literals.  The `fuel` argument only
bounds recursion; `reFuel` is always a sufficient bound.
-/

/-- Anchored matching of a pattern against a string (both as character
lists), with explicit fuel.  Returns true when some prefix of `s`
matches the whole pattern, like Python's `re.match`. -/
def reMatchHere : Nat → List Char → List Char → Bool
  | 0, _, _ => false
  | _ + 1, [], _ => true
  | fuel + 1, c :: '*' :: ps, s =>
      reMatchHere fuel ps s ||
        (match s with
         | [] => false
         | x :: xs => (c == '.' || c == x) && reMatchHere fuel (c :: '*' :: ps) xs)
  | fuel + 1, c :: ps, s =>
      match s with
      | [] => false
      | x :: xs => (c == '.' || c == x) && reMatchHere fuel ps xs

def reFuel (p s : List Char) : Nat := (p.length + 1) * (s.length + 1) + 1

/-- Model of `re.match(pattern, value, re.IGNORECASE)` viewed as a
boolean (the engine only tests the result for truthiness). -/
def reMatchCI (pattern value : String) : Bool :=
  let p := (pyLower pattern).data
  let s := (pyLower value).data
  reMatchHere (reFuel p s) p s

/-- Model of `re.search(pattern, value, re.IGNORECASE)` viewed as a
boolean: anchored matching attempted at every start position. -/
def reSearchCI (pattern value : String) : Bool :=
  let p := (pyLower pattern).data
  let s := (pyLower value).data
  (List.range (s.length + 1)).any fun i => reMatchHere (reFuel p s) p (s.drop i)

/-! ### Association-list helpers (Python `dict` as finite map) -/

/-- `d.get(k, 0)`-style lookup in an association list of counters. -/
def alistGet : List (Int × Nat) → Int → Nat
  | [], _ => 0
  | kv :: rest, k => if kv.1 == k then kv.2 else alistGet rest k

/-- Increment the counter stored under `k` (insert `1` if absent). -/
def alistBump : List (Int × Nat) → Int → List (Int × Nat)
  | [], k => [(k, 1)]
  | kv :: rest, k =>
      if kv.1 == k then (kv.1, kv.2 + 1) :: rest else kv :: alistBump rest k

/-- Lookup in a string-keyed association list. -/
def salistGet : List (String × List String) → String → Option (List String)
  | [], _ => none
  | kv :: rest, k => if kv.1 == k then some kv.2 else salistGet rest k

/-- Add `v` to the set stored under `k` (sets are duplicate-free lists). -/
def salistAdd : List (String × List String) → String → String → List (String × List String)
  | [], k, v => [(k, [v])]
  | kv :: rest, k, v =>
      if kv.1 == k then (kv.1, if kv.2.contains v then kv.2 else kv.2 ++ [v]) :: rest
      else kv :: salistAdd rest k v

/-! ### Data model (`backend/apps/events/models.py` projection and
`backend/apps/detection` records as used by `engine.py`) -/

/-- Projection of `SecurityEvent` onto the fields the detection engine
reads directly.  `id` is the database primary key.  `attrs` carries the
remaining string-valued model attributes, for the engine's generic
`getattr(event, field, None)` accesses (absent key = Python `None`). -/
structure SecurityEvent where
  id : Nat
  event_id : Int
  timestamp : Int
  hostname : String
  user_name : String
  target_user_name : String
  source_ip : String
  process_name : String
  service_name : String
  attrs : List (String × String) := []
  deriving Repr, DecidableEq

/-- `getattr(event, field, None)` restricted to string-valued reads, the
only way the engine consumes dynamic fields (suppression conditions,
pattern fields, `track_unique`, fallback `track_by`).  Named fields are
resolved first, then `attrs`. -/
def SecurityEvent.getAttr (e : SecurityEvent) (field : String) : Option String :=
  if field == "hostname" then some e.hostname
  else if field == "user_name" then some e.user_name
  else if field == "target_user_name" then some e.target_user_name
  else if field == "source_ip" then some e.source_ip
  else if field == "process_name" then some e.process_name
  else if field == "service_name" then some e.service_name
  else (e.attrs.find? (fun kv => kv.1 == field)).map (·.2)

/-- `EntityTracker` (model class lives in the detection app's
`models.py`, reconstructed here from its uses in `engine.py` and §3 of
the design). -/
structure EntityTracker where
  entity_type : String
  entity_value : String
  hostname : String
  window_start : Int
  window_end : Int
  event_counts : List (Int × Nat)
  unique_values : List (String × List String)
  event_ids : List Nat
  last_event_time : Int
  deriving Repr, DecidableEq

/-- Modelled from the spec: `EntityTracker.increment_event` is in the
detection app's `models.py`, which is absent from the sources; §4.1
says "Increment the tracker's per-event-id counter and append the event
id". -/
def EntityTracker.incrementEvent (t : EntityTracker) (eventId : Int) (dbId : Nat) :
    EntityTracker :=
  { t with
    event_counts := alistBump t.event_counts eventId
    event_ids := t.event_ids ++ [dbId] }

/-- Modelled from the spec: `EntityTracker.get_event_count` (detection
`models.py`, absent from the sources); §3 says `event_counts` maps
event-id to occurrence count within the window. -/
def EntityTracker.getEventCount (t : EntityTracker) (eventId : Int) : Nat :=
  alistGet t.event_counts eventId

/-- Modelled from the spec: `EntityTracker.get_total_count` (detection
`models.py`, absent from the sources); "count matching event ids within
the window" (§4.1).  With no id list it totals every counter (the
`event_count` snapshot stored on alerts). -/
def EntityTracker.getTotalCount (t : EntityTracker) (eventIds : Option (List Int)) : Nat :=
  match eventIds with
  | none => (t.event_counts.map (·.2)).sum
  | some ids => (ids.map t.getEventCount).sum

/-- Modelled from the spec: `EntityTracker.get_unique_count` (detection
`models.py`, absent from the sources); §4.1's `unique_threshold` needs
"the distinct-value count for that field". -/
def EntityTracker.getUniqueCount (t : EntityTracker) (field : String) : Nat :=
  ((salistGet t.unique_values field).getD []).length

/-- Modelled from the spec: `EntityTracker.add_unique_value` (detection
`models.py`, absent from the sources); §3 says `unique_values` maps a
tracked field name to the set of distinct observed values. -/
def EntityTracker.addUniqueValue (t : EntityTracker) (field v : String) : EntityTracker :=
  { t with unique_values := salistAdd t.unique_values field v }

/-- One step of a `SEQUENCE` rule's `logic['sequence']` list, keeping
the source's optional keys (`step.get('event_ids', [step.get('event_id')])`,
`step.get('count', 1)`). -/
structure SeqStep where
  event_ids : Option (List Int) := none
  event_id : Option Int := none
  count : Option Nat := none
  deriving Repr, DecidableEq

/-- `step.get('event_ids', [step.get('event_id')])`: the per-step id
list, whose elements may be Python `None` when only the singular key is
absent. -/
def SeqStep.ids (s : SeqStep) : List (Option Int) :=
  match s.event_ids with
  | some l => l.map some
  | none => [s.event_id]

/-- A pattern on one event field: either a list of strings or a regex
(suppression conditions and `PATTERN` rules use the same shapes). -/
inductive FieldPattern where
  | list (ps : List String)
  | regex (p : String)
  deriving Repr, DecidableEq

/-- The `logic` configuration blob of a rule, with the keys `engine.py`
reads.  `option` fields model `dict.get` with the defaults applied at
the use sites, exactly as in the source. -/
structure RuleLogic where
  event_ids : Option (List Int) := none
  exclude_system_accounts : Option Bool := none
  track_by : Option String := none
  window_minutes : Option Int := none
  track_unique : Option (List String) := none
  threshold : Option Nat := none
  unique_threshold : Option (String × Nat) := none
  sequence : Option (List SeqStep) := none
  patterns : Option (List (String × FieldPattern)) := none
  required_matches : Option Nat := none
  required_events : Option (List Int) := none
  min_counts : Option (List (Int × Nat)) := none
  deriving Repr, DecidableEq

/-- `DetectionRule` (detection `models.py`, reconstructed from its uses
in `engine.py` and §3). -/
structure DetectionRule where
  id : Nat
  name : String
  severity : String
  rule_type : String
  logic : RuleLogic
  enabled : Bool := true
  cooldown_minutes : Int := 0
  min_confidence : Int := 0
  total_alerts : Nat := 0
  deriving Repr, DecidableEq

/-- Alert evidence snapshot (`evidence` dict built in `create_alert`;
`matched_patterns` is the only `extra_evidence` key the engine adds). -/
structure AlertEvidence where
  event_counts : List (Int × Nat)
  unique_values : List (String × List String)
  triggering_event_id : Int
  window_minutes : Int
  matched_patterns : Option Nat := none
  deriving Repr, DecidableEq, Inhabited

/-- `DetectionAlert` creation-time fields (detection `models.py`,
reconstructed from `create_alert` and §3). -/
structure DetectionAlert where
  rule_id : Nat
  title : String
  description : String
  severity : String
  hostname : String
  user_name : String
  source_ip : String
  target_user : String
  matched_events : List Nat
  event_count : Nat
  evidence : AlertEvidence
  confidence : Int
  first_event_time : Int
  last_event_time : Int
  triggered_at : Int
  deriving Repr, DecidableEq, Inhabited

/-- `AlertSuppressionRule` (detection `models.py`, reconstructed from
`check_suppression` and §3).  `expires_at = none` means indefinite. -/
structure AlertSuppressionRule where
  id : Nat
  detection_rule : Nat
  conditions : List (String × FieldPattern)
  enabled : Bool := true
  expires_at : Option Int := none
  deriving Repr, DecidableEq

/-- The persistent state the engine reads and writes: the loaded
(enabled) rule map, and the tracker / alert / suppression tables.
`rules` models `self.rules`, the cache `load_rules` fills with exactly
the enabled rules. -/
structure EngineState where
  rules : List DetectionRule
  trackers : List EntityTracker
  alerts : List DetectionAlert
  suppressions : List AlertSuppressionRule
  deriving Repr, DecidableEq

/-! ### Detection engine (`backend/apps/detection/engine.py`) -/

/-- `DetectionEngine.SYSTEM_ACCOUNTS`. -/
def SYSTEM_ACCOUNTS : List String :=
  ["system", "local service", "network service", "anonymous logon",
   "nt authority\\system", "nt authority\\local service",
   "nt authority\\network service", "window manager\\dwm-1",
   "window manager\\dwm-2", "window manager\\dwm-3",
   "font driver host\\umfd-0", "font driver host\\umfd-1",
   "font driver host\\umfd-2", "font driver host\\umfd-3",
   "$", "-", "", "n/a", "none",
   "defaultaccount", "guest", "wdagutilityaccount",
   "svc_", "service_", "sql", "iis", "scom", "exchange", "backup"]

/-- `DetectionEngine.NOISE_EVENT_IDS`. -/
def NOISE_EVENT_IDS : List Int := [4798, 4799, 5320, 5351, 5117, 4117, 5857, 7040]

/-- `DetectionEngine.is_system_account`. -/
def isSystemAccount (user_name : String) : Bool :=
  if !pyTruthy user_name then true
  else
    let u := pyStrip (pyLower user_name)
    if SYSTEM_ACCOUNTS.contains u then true
    else if pyEndsWith u "$" then true
    else if pyStartsWith u "dwm-" || pyStartsWith u "umfd-" then true
    else if strContains u "nt authority" || strContains u "nt service" then true
    else if strContains u "window manager" || strContains u "font driver" then true
    else if pyStartsWith u "svc_" || pyStartsWith u "svc-" then true
    else if pyStartsWith u "service_" || pyStartsWith u "service-" then true
    else false

/-- Python `a or b` on optional strings. -/
def pyOr (a b : String) : String := if pyTruthy a then a else b

/-- First list element satisfying `p`, together with its index. -/
def findFirst : List EntityTracker → (EntityTracker → Bool) → Option (Nat × EntityTracker)
  | [], _ => none
  | t :: ts, p =>
      if p t then some (0, t)
      else (findFirst ts p).map (fun it => (it.1 + 1, it.2))

/-- The overlap predicate of `get_or_create_tracker`'s lookup
(`entity_type=..., entity_value=..., hostname=..., window_end__gte=window_start`). -/
def trackerMatches (etype evalue host : String) (windowStart : Int) (t : EntityTracker) : Bool :=
  t.entity_type == etype && t.entity_value == evalue && t.hostname == host &&
    windowStart ≤ t.window_end

/-- `DetectionEngine.get_or_create_tracker`.  `refTime` is the
`event_time` argument (always the event timestamp in the engine; a
`datetime` is always truthy so the `else timezone.now()` arm is dead),
`now` is `timezone.now()` used by the cleanup sweep.  Returns the
tracker, its index in the updated table, and the updated state. -/
def getOrCreateTracker (st : EngineState) (etype evalue host : String)
    (windowMinutes refTime now : Int) : EntityTracker × Nat × EngineState :=
  let windowStart := refTime - windowMinutes * 60
  let cleanupThreshold := now - 3600
  let ts := st.trackers.filter (fun t => !(t.window_end < cleanupThreshold))
  match findFirst ts (trackerMatches etype evalue host windowStart) with
  | some (i, t) =>
      if t.window_end < refTime then
        let t' := { t with window_end := refTime + windowMinutes * 60 }
        (t', i, { st with trackers := ts.set i t' })
      else (t, i, { st with trackers := ts })
  | none =>
      let fresh : EntityTracker :=
        { entity_type := etype
          entity_value := evalue
          hostname := host
          window_start := refTime
          window_end := refTime + windowMinutes * 60
          event_counts := []
          unique_values := []
          event_ids := []
          -- not set by `EntityTracker.objects.create`; every caller
          -- overwrites it with the event timestamp before saving
          last_event_time := refTime }
      (fresh, ts.length, { st with trackers := ts ++ [fresh] })

/-- `DetectionEngine.check_suppression`.  A condition on a field whose
event value is falsy is skipped (counts as matching), exactly as in the
source's `if event_value:` guard. -/
def checkSuppression (st : EngineState) (rule : DetectionRule) (e : SecurityEvent)
    (now : Int) : Bool :=
  let sups := st.suppressions.filter (fun s =>
    s.enabled && s.detection_rule == rule.id &&
      (match s.expires_at with
       | none => true
       | some t => now < t))
  sups.any (fun s =>
    s.conditions.all (fun fp =>
      match e.getAttr fp.1 with
      | none => true
      | some v =>
          if !pyTruthy v then true
          else
            match fp.2 with
            | .list ps => (ps.map pyLower).contains (pyLower v)
            | .regex p => reMatchCI p v))

/-- The per-entity-type alert matching of `check_cooldown` (one recent
alert matching this predicate puts the rule in cooldown for the key). -/
def cooldownEntityMatch (entityType entityKey : String) (a : DetectionAlert) : Bool :=
  if entityType == "USER_NAME" || entityType == "TARGET_USER" then
    a.user_name == entityKey || a.target_user == entityKey
  else if entityType == "SOURCE_IP" then
    a.source_ip == entityKey
  else if entityType == "HOSTNAME" then
    a.hostname == entityKey
  else
    a.user_name == entityKey || a.hostname == entityKey

/-- `DetectionEngine.check_cooldown`.  (The `try/except` around the
`source_ip` filter guards a database type error that cannot arise in
the list model.) -/
def checkCooldown (st : EngineState) (rule : DetectionRule)
    (entityKey entityType : String) (now : Int) : Bool :=
  if rule.cooldown_minutes ≤ 0 then false
  else
    let cooldownStart := now - rule.cooldown_minutes * 60
    let base := st.alerts.filter (fun a =>
      a.rule_id == rule.id && cooldownStart ≤ a.triggered_at)
    base.any (cooldownEntityMatch entityType entityKey)

/-- `DetectionEngine.create_alert`.  The tracker argument is the
in-memory tracker the caller just saved; `now` is `timezone.now()`
(stamping `triggered_at` and feeding the cooldown check).
`extraMatched` is the one `extra_evidence` key the engine ever passes
(`matched_patterns`). -/
def createAlert (st : EngineState) (rule : DetectionRule) (e : SecurityEvent)
    (tracker : EntityTracker) (title description : String) (confidence : Int)
    (extraMatched : Option Nat) (now : Int) : Option DetectionAlert × EngineState :=
  let entityKey := tracker.entity_value
  if checkCooldown st rule entityKey tracker.entity_type now then (none, st)
  else if confidence < rule.min_confidence then (none, st)
  else
    let evidence : AlertEvidence :=
      { event_counts := tracker.event_counts
        unique_values := tracker.unique_values
        triggering_event_id := e.event_id
        -- `(window_end - window_start).seconds // 60`: `timedelta.seconds`
        -- is the day-normalized seconds component, in `[0, 86400)`
        window_minutes := ((tracker.window_end - tracker.window_start) % 86400) / 60
        matched_patterns := extraMatched }
    let alert : DetectionAlert :=
      { rule_id := rule.id
        title := title
        description := description
        severity := rule.severity
        hostname := e.hostname
        user_name := pyOr e.user_name e.target_user_name
        source_ip := e.source_ip
        target_user := e.target_user_name
        -- `tracker.event_ids[-50:]`
        matched_events := tracker.event_ids.drop (tracker.event_ids.length - 50)
        event_count := tracker.getTotalCount none
        evidence := evidence
        confidence := confidence
        first_event_time := tracker.window_start
        last_event_time := e.timestamp
        triggered_at := now }
    let rules' := st.rules.map (fun r =>
      if r.id == rule.id then { r with total_alerts := r.total_alerts + 1 } else r)
    (some alert, { st with alerts := st.alerts ++ [alert], rules := rules' })

/-- `DetectionEngine._get_entity_value`. -/
def getEntityValue (e : SecurityEvent) (track_by : String) : Option String :=
  if track_by == "user_name" then some (pyOr e.user_name e.target_user_name)
  else if track_by == "source_ip" then
    (if pyTruthy e.source_ip then some e.source_ip else none)
  else if track_by == "hostname" then some e.hostname
  else if track_by == "target_user" then some e.target_user_name
  else if track_by == "process" then some e.process_name
  else if track_by == "service" then some e.service_name
  else e.getAttr track_by

/-- Truthiness of the resolved entity value (`if not entity_value`). -/
def entityTruthy : Option String → Bool
  | none => false
  | some s => pyTruthy s

/-- The confidence formula of `_evaluate_threshold`:
`min(100, 50 + (count - threshold) * 10)`. -/
def thresholdConfidence (count threshold : Nat) : Int :=
  min 100 (50 + ((count : Int) - (threshold : Int)) * 10)

/-- The `f"{rule.name}: {tracker.entity_value}"` alert title. -/
def entityAlertTitle (rule : DetectionRule) (tracker : EntityTracker) : String :=
  let n := rule.name
  let v := tracker.entity_value
  s!"{n}: {v}"

/-- The `_evaluate_threshold` alert description text. -/
def thresholdDescription (rule : DetectionRule) (tracker : EntityTracker)
    (count threshold : Nat) : String :=
  let c := count
  let th := threshold
  let ty := tracker.entity_type
  let v := tracker.entity_value
  let w := rule.logic.window_minutes.getD 10
  s!"Detected {c} events (threshold: {th}) for {ty} \x27{v}\x27 within {w} minutes"

/-- The `_evaluate_sequence` alert description text. -/
def sequenceDescription (tracker : EntityTracker) : String :=
  let ty := tracker.entity_type
  let v := tracker.entity_value
  let cts := reprStr tracker.event_counts
  s!"Detected suspicious sequence for {ty} \x27{v}\x27: {cts}"

/-- `DetectionEngine._evaluate_threshold`. -/
def evaluateThreshold (rule : DetectionRule) (e : SecurityEvent)
    (tracker : EntityTracker) (st : EngineState) (now : Int) :
    Option DetectionAlert × EngineState :=
  let logic := rule.logic
  let threshold := logic.threshold.getD 5
  let eventIds := logic.event_ids.getD [e.event_id]
  let count := tracker.getTotalCount (some eventIds)
  if threshold ≤ count then
    let uniqueOk : Bool :=
      match logic.unique_threshold with
      | some ut => ut.2 ≤ tracker.getUniqueCount ut.1
      | none => true
    if uniqueOk then
      createAlert st rule e tracker (entityAlertTitle rule tracker)
        (thresholdDescription rule tracker count threshold)
        (thresholdConfidence count threshold) none now
    else (none, st)
  else (none, st)

/-- Per-step satisfaction in `_evaluate_sequence`: the cumulative count
over the step's event ids (`if eid` drops `None` and `0` entries)
reaches `step.get('count', 1)`. -/
def stepSatisfied (tracker : EntityTracker) (s : SeqStep) : Bool :=
  let actual := (((s.ids.filterMap id).filter (fun eid => eid != 0)).map
    tracker.getEventCount).sum
  s.count.getD 1 ≤ actual

/-- `DetectionEngine._evaluate_sequence`. -/
def evaluateSequence (rule : DetectionRule) (e : SecurityEvent)
    (tracker : EntityTracker) (st : EngineState) (now : Int) :
    Option DetectionAlert × EngineState :=
  let sequence := rule.logic.sequence.getD []
  if sequence.length < 2 then (none, st)
  else if sequence.all (stepSatisfied tracker) then
    let finalStep := sequence.getLastD {}
    let finalIds := finalStep.ids
    if !finalIds.contains (some e.event_id) then (none, st)
    else
      createAlert st rule e tracker (entityAlertTitle rule tracker)
        (sequenceDescription tracker) 85 none now
  else (none, st)

/-- `DetectionEngine._evaluate_pattern`. -/
def evaluatePattern (rule : DetectionRule) (e : SecurityEvent)
    (tracker : EntityTracker) (st : EngineState) (now : Int) :
    Option DetectionAlert × EngineState :=
  let patterns := rule.logic.patterns.getD []
  let matchCount := patterns.countP (fun fp =>
    match e.getAttr fp.1 with
    | none => false
    | some v =>
        pyTruthy v &&
          (match fp.2 with
           | .list ps => ps.any (fun p => strContains (pyLower v) (pyLower p))
           | .regex p => reSearchCI p v))
  let required := rule.logic.required_matches.getD patterns.length
  if required ≤ matchCount then
    let n := rule.name
    let h := e.hostname
    let m := matchCount
    let tot := patterns.length
    createAlert st rule e tracker s!"{n}: {h}"
      s!"Detected suspicious pattern: {m}/{tot} conditions matched"
      (min 100 (70 + (matchCount : Int) * 10)) (some matchCount) now
  else (none, st)

/-- `DetectionEngine._evaluate_correlation`. -/
def evaluateCorrelation (rule : DetectionRule) (e : SecurityEvent)
    (tracker : EntityTracker) (st : EngineState) (now : Int) :
    Option DetectionAlert × EngineState :=
  let required := rule.logic.required_events.getD []
  let present := tracker.event_counts.map (·.1)
  if required.all present.contains then
    let minCounts := rule.logic.min_counts.getD []
    if minCounts.all (fun km => km.2 ≤ tracker.getEventCount km.1) then
      let n := rule.name
      let v := tracker.entity_value
      let req := reprStr required
      createAlert st rule e tracker s!"{n}: {v}"
        s!"Detected correlated events: {req} for \x27{v}\x27" 90 none now
    else (none, st)
  else (none, st)

/-- The system-account exclusion guard of `evaluate_rule` (the three
early `return None` tests under `logic.get('exclude_system_accounts',
True)`, folded into one boolean). -/
def systemExcluded (logic : RuleLogic) (isSys isTargetSys : Bool) : Bool :=
  (logic.exclude_system_accounts.getD true) &&
    (isSys && isTargetSys ||
     (logic.track_by.getD "user_name" == "target_user" && isTargetSys) ||
     (logic.track_by.getD "user_name" == "user_name" && isSys))

/-- The `track_unique` recording loop of `evaluate_rule`: for each
listed field, a truthy event value is added to the tracker's
unique-value set. -/
def trackUniqueFold (e : SecurityEvent) (fields : List String)
    (t : EntityTracker) : EntityTracker :=
  fields.foldl (fun t f =>
    match e.getAttr f with
    | some v => if pyTruthy v then t.addUniqueValue f v else t
    | none => t) t

/-- The full in-memory tracker update `evaluate_rule` performs before
saving: increment the per-event-id counter and append the event id,
stamp `last_event_time`, record `track_unique` values. -/
def updatedTracker (rule : DetectionRule) (e : SecurityEvent)
    (t : EntityTracker) : EntityTracker :=
  trackUniqueFold e (rule.logic.track_unique.getD [])
    { t.incrementEvent e.event_id e.id with last_event_time := e.timestamp }

/-- `DetectionEngine.evaluate_rule`. -/
def evaluateRule (rule : DetectionRule) (e : SecurityEvent)
    (isSys isTargetSys : Bool) (st : EngineState) (now : Int) :
    Option DetectionAlert × EngineState :=
  let logic := rule.logic
  let eventIds := logic.event_ids.getD []
  if !eventIds.isEmpty && !eventIds.contains e.event_id then (none, st)
  else if systemExcluded logic isSys isTargetSys then (none, st)
  else
    let track_by := logic.track_by.getD "user_name"
    let windowMinutes := logic.window_minutes.getD 10
    let ev? := getEntityValue e track_by
    if !entityTruthy ev? then (none, st)
    else
      let entityValue := ev?.getD ""
      let (tracker, idx, st1) :=
        getOrCreateTracker st (pyUpper track_by) entityValue e.hostname
          windowMinutes e.timestamp now
      let t3 := updatedTracker rule e tracker
      let st2 := { st1 with trackers := st1.trackers.set idx t3 }
      if rule.rule_type == "THRESHOLD" then evaluateThreshold rule e t3 st2 now
      else if rule.rule_type == "SEQUENCE" then evaluateSequence rule e t3 st2 now
      else if rule.rule_type == "PATTERN" then evaluatePattern rule e t3 st2 now
      else if rule.rule_type == "CORRELATION" then evaluateCorrelation rule e t3 st2 now
      else (none, st2)

/-- `DetectionEngine.process_event`.  The fold iterates the rule cache
captured at loop entry while threading state, as the Python loop does;
nothing the loop later reads is changed by `create_alert`'s in-place
`total_alerts` bump. -/
def processEvent (st : EngineState) (e : SecurityEvent) (now : Int) :
    List DetectionAlert × EngineState :=
  if NOISE_EVENT_IDS.contains e.event_id then ([], st)
  else
    let isSys := isSystemAccount e.user_name
    let isTargetSys := isSystemAccount e.target_user_name
    st.rules.foldl (fun acc rule =>
      match evaluateRule rule e isSys isTargetSys acc.2 now with
      | (some a, st') => (acc.1 ++ [a], st')
      | (none, st') => (acc.1, st')) ([], st)

/-! ### PQL engine (`backend/apps/query/pql_engine.py`)

The executor is modelled over an in-memory store: a list of
`SecurityEvent` rows (the canonical extracted columns of
`apps/events/models.py` are reached through `SecurityEvent.getAttr` /
`fieldVal`; remaining text columns live in `attrs`).  The Django ORM is
the store collaborator of §6; its comparison primitives are modelled as
list filtering, and the specific ORM error behaviors the executor's
control flow depends on are modelled where they occur, with comments. -/

/-- Python `int(str)`: the accumulating digit scanner.  A single `_`
is permitted between digits (PEP 515). -/
def pyIntGo (acc : Nat) : List Char → Option Nat
  | [] => some acc
  | '_' :: d :: rest =>
      if d.isDigit then pyIntGo (acc * 10 + (d.toNat - 48)) rest else none
  | '_' :: [] => none
  | d :: rest =>
      if d.isDigit then pyIntGo (acc * 10 + (d.toNat - 48)) rest else none

/-- Digits part of `int(str)`: must start with a digit. -/
def pyIntDigits : List Char → Option Nat
  | [] => none
  | d :: rest => if d.isDigit then pyIntGo (d.toNat - 48) rest else none

/-- Python `int(s)` on a string: surrounding whitespace is stripped, an
optional sign precedes a non-empty digit run; anything else raises
`ValueError`, modelled as `none`. -/
def parsePyInt (s : String) : Option Int :=
  match (pyStrip s).data with
  | '+' :: rest => (pyIntDigits rest).map Int.ofNat
  | '-' :: rest => (pyIntDigits rest).map (fun n => -(n : Int))
  | cs => (pyIntDigits cs).map Int.ofNat

/-- Seconds per unit for the `s`/`m`/`h`/`d`/`w` time-unit suffixes. -/
def unitSeconds (u : Char) : Option Int :=
  if u == 's' then some 1
  else if u == 'm' then some 60
  else if u == 'h' then some 3600
  else if u == 'd' then some 86400
  else if u == 'w' then some 604800
  else none

/-- `parse_time_value` (module-level function): resolve a suffixed time
token such as `"24h"` against the current instant `now`
(`timezone.now()`).  The trailing `is_naive` re-check is the identity
in the model (all instants are absolute). -/
def parseTimeValue (now : Int) (value : String) : Int :=
  if value.length < 2 then now
  else
    let unit := (pyLastChar value).toLower
    match parsePyInt (pyDropLast value) with
    | none => now
    | some amount =>
        match unitSeconds unit with
        | some secs => now - amount * secs
        | none => now

/-- Values a parsed PQL condition can carry (strings, integers,
booleans, `NULL`, and resolved `datetime` instants).  Float literals
are outside the model. -/
inductive PValue where
  | pstr (s : String)
  | pint (n : Int)
  | ptime (t : Int)
  | pbool (b : Bool)
  | pnull
  deriving Repr, DecidableEq

/-- One entry of a parsed condition list: either a condition dict
`{'field': f, 'operator': op, 'value': v}` — for `op = "IN"` the value
is the list `vs`, otherwise the single `v` — or a `{'logical': op}`
marker. -/
inductive CondItem where
  | cond (field : String) (op : String) (v : PValue) (vs : List PValue)
  | logical (op : String)
  deriving Repr, DecidableEq

/-- `PQLExecutor.FIELD_MAP`. -/
def FIELD_MAP : List (String × String) :=
  [("event_id", "event_id"), ("timestamp", "timestamp"), ("hostname", "hostname"),
   ("channel", "channel"), ("severity", "severity"), ("user_name", "user_name"),
   ("user", "user_name"), ("source_ip", "source_ip"), ("dest_ip", "destination_ip"),
   ("destination_ip", "destination_ip"), ("process_name", "process_name"),
   ("process", "process_name"), ("process_path", "process_path"),
   ("command_line", "command_line"), ("cmd", "command_line"),
   ("service_name", "service_name"), ("service", "service_name"),
   ("message", "message"), ("msg", "message"), ("agent_id", "agent_id"),
   ("logon_type", "logon_type"), ("raw_xml", "raw_xml"), ("xml", "raw_xml"),
   ("event_data", "event_data"), ("data", "event_data"),
   ("full_text", "full_text"), ("text", "full_text")]

/-- `FIELD_MAP.get(field, field)`. -/
def mapField (f : String) : String :=
  match FIELD_MAP.find? (fun kv => kv.1 == f) with
  | some kv => kv.2
  | none => f

/-- The field names of the `SecurityEvent` model
(`SecurityEvent._meta.get_fields()`, which adds the implicit `id`
primary key; no model points a reverse relation at `SecurityEvent`). -/
def SECURITY_EVENT_FIELDS : List String :=
  ["id", "event_id", "event_record_id", "correlation_id", "timestamp",
   "received_at", "source", "channel", "provider_name", "provider_guid",
   "hostname", "domain", "ip_address", "agent_id", "category", "severity",
   "level", "level_name", "task", "task_name", "opcode", "opcode_name",
   "keywords", "message", "raw_xml", "event_data", "user_data", "system_data",
   "user_name", "user_domain", "user_sid", "target_user_name",
   "target_user_domain", "target_user_sid", "process_id", "process_name",
   "process_path", "command_line", "parent_process_id", "parent_process_name",
   "parent_command_line", "source_ip", "source_port", "destination_ip",
   "destination_port", "protocol", "logon_type", "logon_type_name", "logon_id",
   "authentication_package", "workstation_name", "object_name", "object_type",
   "access_mask", "service_name", "service_type", "service_start_type",
   "service_account", "object_dn", "object_guid", "object_class",
   "attribute_name", "attribute_value", "ticket_encryption_type",
   "ticket_options", "service_name_kerberos", "file_hash_md5", "file_hash_sha1",
   "file_hash_sha256", "status", "status_code", "failure_reason", "full_text",
   "tags", "is_processed", "is_alerted"]

/-- `PQLExecutor._get_valid_fields`: the model's field names plus
`FIELD_MAP`'s values (all of which are already model fields). -/
def VALID_FIELDS : List String := SECURITY_EVENT_FIELDS ++ FIELD_MAP.map (·.2)

/-- `PQLExecutor._is_valid_field`. -/
def isValidField (f : String) : Bool := VALID_FIELDS.contains f

/-- The ORM lookup an operator translates to. -/
inductive Lookup where
  | exact | gt | gte | lt | lte | icontains | regexLk | inlist
  deriving Repr, DecidableEq

/-- The executor's internal filter expression: the shape of the Django
`Q` object `_build_q_objects` assembles. -/
inductive QExpr where
  | atom (field : String) (lk : Lookup) (v : PValue) (vs : List PValue)
  | qand (a b : QExpr)
  | qor (a b : QExpr)
  | qnot (a : QExpr)
  deriving Repr, DecidableEq

/-- Civil date to days since the Unix epoch (proleptic Gregorian). -/
def daysFromCivil (y m d : Int) : Int :=
  let y' := if m ≤ 2 then y - 1 else y
  let era := (if 0 ≤ y' then y' else y' - 399) / 400
  let yoe := y' - era * 400
  let mp := (m + 9) % 12
  let doy := (153 * mp + 2) / 5 + d - 1
  let doe := yoe * 365 + yoe / 4 - yoe / 100 + doy
  era * 146097 + doe - 719468

/-- All-digit character list to a number (no signs, no underscores). -/
def digitsToNat (s : List Char) : Option Nat :=
  if s.isEmpty || !s.all Char.isDigit then none
  else some (s.foldl (fun acc c => acc * 10 + (c.toNat - 48)) 0)

/-- Model of `django.utils.dateparse.parse_datetime` for the naive
`YYYY-MM-DD[T ]HH:MM[:SS]` shapes (fractional seconds and timezone
suffixes are outside the model); non-matching or out-of-range input is
`none` — the caller's bare `except: pass` swallows the `ValueError`
Django raises for out-of-range components, so both collapse to "leave
the value as a string". -/
def parseIsoDatetime (s : String) : Option Int :=
  let split :=
    if (splitOnChar 'T' s.data).length == 2 then some (splitOnChar 'T' s.data)
    else if (splitOnChar ' ' s.data).length == 2 then some (splitOnChar ' ' s.data)
    else none
  match split with
  | none => none
  | some parts =>
      let datePart := parts.headD []
      let timePart := (parts.drop 1).headD []
      match splitOnChar '-' datePart, splitOnChar ':' timePart with
      | [ys, ms, ds], [hs, mins] =>
          parseIsoCore ys ms ds hs mins ['0']
      | [ys, ms, ds], [hs, mins, ss] =>
          parseIsoCore ys ms ds hs mins ss
      | _, _ => none
where
  parseIsoCore (ys ms ds hs mins ss : List Char) : Option Int :=
    match digitsToNat ys, digitsToNat ms, digitsToNat ds,
        digitsToNat hs, digitsToNat mins, digitsToNat ss with
    | some y, some mo, some d, some h, some mi, some sec =>
        if 1 ≤ mo && mo ≤ 12 && 1 ≤ d && d ≤ 31 && h ≤ 23 && mi ≤ 59 && sec ≤ 59 then
          some (daysFromCivil (y : Int) (mo : Int) (d : Int) * 86400 +
            (h : Int) * 3600 + (mi : Int) * 60 + (sec : Int))
        else none
    | _, _, _, _, _, _ => none

/-- The timestamp-value normalization block of `_build_q_objects`
(datetimes are already absolute in the model; suffixed strings resolve
through `parse_time_value`; other strings go through `parse_datetime`
and are kept verbatim when that fails). -/
def normalizeTsValue (now : Int) (field : String) (v : PValue) : PValue :=
  if field == "timestamp" then
    match v with
    | .pstr s =>
        if s.data.length > 0 && ((pyLastChar s).toLower ∈ ['h', 'm', 's', 'd', 'w']) then
          .ptime (parseTimeValue now s)
        else
          match parseIsoDatetime s with
          | some t => .ptime t
          | none => .pstr s
    | other => other
  else v

/-- String form of a PQL value (`str(...)` at the points the executor
coerces). -/
def pvalToStr : PValue → String
  | .pstr s => s
  | .pint n => toString n
  | .ptime t => toString t
  | .pbool b => if b then "True" else "False"
  | .pnull => "None"

/-- The per-condition `Q` object built by `_build_q_objects`'s operator
dispatch; `none` when an unrecognized comparison operator falls through
every `elif` arm (`continue`, after `has_valid_conditions` is set).
For `LIKE` the source calls `value.replace`, which presumes a string
value; the model reads the value's text. -/
def condQ (now : Int) (field op : String) (v : PValue) (vs : List PValue) :
    Option QExpr :=
  let v := normalizeTsValue now field v
  if op == "=" then some (.atom field .exact v [])
  else if op == "!=" then some (.qnot (.atom field .exact v []))
  else if op == ">" then some (.atom field .gt v [])
  else if op == ">=" then some (.atom field .gte v [])
  else if op == "<" then some (.atom field .lt v [])
  else if op == "<=" then some (.atom field .lte v [])
  else if op == "CONTAINS" then
    if field == "message" || field == "msg" then
      some (.qor (.qor (.qor (.atom "message" .icontains v [])
        (.atom "raw_xml" .icontains v [])) (.atom "event_data" .icontains v []))
        (.atom "full_text" .icontains v []))
    else some (.atom field .icontains v [])
  else if op == "LIKE" then
    some (.atom field .regexLk
      (.pstr ⟨replaceCharWith '_' ['.']
        (replaceCharWith '%' ['.', '*'] (pvalToStr v).data)⟩) [])
  else if op == "IN" then some (.atom field .inlist .pnull vs)
  else none

/-- `_build_q_objects`: fold the condition list left-to-right, mapping
and validating fields, dropping unknown-field conditions, and chaining
with the most recent logical connective (`AND` initially; a pending
`NOT` connects nothing, leaving the accumulated `Q` unchanged, exactly
like the source's two-armed `elif`). -/
def buildQGo (now : Int) : List CondItem → Option QExpr → String → Bool →
    Option QExpr × Bool
  | [], q, _, hv => (q, hv)
  | .logical op :: rest, q, _, hv => buildQGo now rest q op hv
  | .cond f op v vs :: rest, q, cur, hv =>
      let f' := mapField f
      if !isValidField f' then buildQGo now rest q cur hv
      else
        match condQ now f' op v vs with
        | none => buildQGo now rest q cur true
        | some qc =>
            let q' :=
              match q with
              | none => some qc
              | some q0 =>
                  if cur == "AND" then some (.qand q0 qc)
                  else if cur == "OR" then some (.qor q0 qc)
                  else some q0
            buildQGo now rest q' cur true

/-- `PQLExecutor._build_q_objects` (returns the built `Q` object and
the `has_valid_conditions` flag). -/
def buildQObjects (now : Int) (conditions : List CondItem) : Option QExpr × Bool :=
  if conditions.isEmpty then (none, true)
  else buildQGo now conditions none "AND" false

/-- Typed read of a canonical column from a stored row (the store
collaborator's view of the event: numeric columns for `id`, `event_id`
and `timestamp`, text for the rest; a column missing from the
projection reads as SQL `NULL`). -/
def fieldVal (e : SecurityEvent) (f : String) : PValue :=
  if f == "id" then .pint (e.id : Int)
  else if f == "event_id" then .pint e.event_id
  else if f == "timestamp" then .ptime e.timestamp
  else
    match e.getAttr f with
    | some s => .pstr s
    | none => .pnull

/-- Store equality primitive (`field=value`): same-typed comparison;
cross-typed comparisons do not match. -/
def pvEq : PValue → PValue → Bool
  | .pstr a, .pstr b => a == b
  | .pint a, .pint b => a == b
  | .ptime a, .ptime b => a == b
  | .pint a, .ptime b => a == b
  | .ptime a, .pint b => a == b
  | .pbool a, .pbool b => a == b
  | .pnull, .pnull => true
  | _, _ => false

/-- Store ordering primitive (`__lt`-style comparisons): numeric and
instant columns compare numerically, otherwise their text forms
compare lexicographically. -/
def pvLt (a b : PValue) : Bool :=
  match a, b with
  | .pint x, .pint y => x < y
  | .ptime x, .ptime y => x < y
  | .pint x, .ptime y => x < y
  | .ptime x, .pint y => x < y
  | _, _ => pvalToStr a < pvalToStr b

def pvLe (a b : PValue) : Bool := pvLt a b || pvEq a b

/-- Case-sensitive unanchored regex test (Django's `__regex` lookup),
over the same literal / `.` / `*` fragment as `reMatchCI`. -/
def reSearchCS (pattern value : String) : Bool :=
  let p := pattern.toList
  let s := value.toList
  (List.range (s.length + 1)).any fun i => reMatchHere (reFuel p s) p (s.drop i)

/-- Evaluate one lookup atom against a row. -/
def evalAtom (e : SecurityEvent) (field : String) (lk : Lookup) (v : PValue)
    (vs : List PValue) : Bool :=
  let fv := fieldVal e field
  match lk with
  | .exact => pvEq fv v
  | .gt => pvLt v fv
  | .gte => pvLe v fv
  | .lt => pvLt fv v
  | .lte => pvLe fv v
  | .icontains => strContains (pyLower (pvalToStr fv)) (pyLower (pvalToStr v))
  | .regexLk => reSearchCS (pvalToStr v) (pvalToStr fv)
  | .inlist => vs.any (pvEq fv)

/-- Evaluate a `Q` expression against a row. -/
def evalQ (e : SecurityEvent) : QExpr → Bool
  | .atom f lk v vs => evalAtom e f lk v vs
  | .qand a b => evalQ e a && evalQ e b
  | .qor a b => evalQ e a || evalQ e b
  | .qnot a => !evalQ e a

/-- The AST `parse_search` builds (all keys always present). -/
structure SearchAst where
  source : String := "events"
  conditions : List CondItem := []
  order_by : Option String := none
  order_dir : String := "DESC"
  limit : Int := 100
  offset : Int := 0
  deriving Repr, DecidableEq

/-- The AST `parse_hunt` builds. -/
structure HuntAst where
  target : String := "events"
  conditions : List CondItem := []
  group_by : Option String := none
  limit : Int := 500
  deriving Repr, DecidableEq

/-- The AST `parse_aggregate` builds.  `aggregations` holds the parsed
function names; `limit` is absent from the parser's dict and only ever
written by `execute_pql`'s override (the executor never reads it). -/
structure AggAst where
  source : String := "events"
  group_by : Option String := none
  aggregations : List String := []
  conditions : List CondItem := []
  within : Option PValue := none
  limit : Option Int := none
  deriving Repr, DecidableEq

/-- A result row: a `.values()` event row, a HUNT group row, or an
AGGREGATE group row (optional members mirror the selected
annotations; `Avg('id')` is exact division in the model). -/
inductive PRow where
  | ev (e : SecurityEvent)
  | huntGroup (key : PValue) (count : Nat) (first_seen last_seen : Option Int)
  | aggGroup (key : PValue) (count : Option Nat) (idSum : Option Int)
      (idAvg : Option Rat) (tsMin tsMax : Option Int)
  deriving Repr, DecidableEq

/-- Stable insertion sort: `le a b` means `a` need not precede `b`
(equal keys keep their input order). -/
def stableInsert (le : α → α → Bool) (x : α) : List α → List α
  | [] => [x]
  | h :: t => if le h x then h :: stableInsert le x t else x :: h :: t

def stableSortBy (le : α → α → Bool) (l : List α) : List α :=
  l.foldl (fun acc x => stableInsert le x acc) []

/-- Django queryset slicing `qs[start:stop]` followed by `list(...)`:
negative bounds raise (`"Negative indexing is not supported"`),
otherwise the elements in `[start, stop)` are returned. -/
def djangoSlice (rows : List PRow) (start stop : Int) : Except String (List PRow) :=
  if start < 0 || stop < 0 then .error "Negative indexing is not supported"
  else .ok ((rows.take stop.toNat).drop start.toNat)

/-- Filter a store through the built `Q` object and `has_valid` flag,
as `_execute_search` / `_execute_hunt` do: all-invalid conditions give
`SecurityEvent.objects.none()`, a missing `Q` leaves the scan
unfiltered.  (The `FieldError` guard around `filter` is dead here:
`_build_q_objects` only emits validated fields.) -/
def applyConditions (store : List SecurityEvent) (qhv : Option QExpr × Bool) :
    List SecurityEvent :=
  if !qhv.2 then []
  else
    match qhv.1 with
    | some q => store.filter (fun e => evalQ e q)
    | none => store

/-- Group rows for HUNT: first-appearance-ordered keys, each with
`count`, `first_seen = Min(timestamp)`, `last_seen = Max(timestamp)`. -/
def huntGroups (evs : List SecurityEvent) (g : String) : List PRow :=
  let keys := evs.foldl (fun acc e =>
    let k := fieldVal e g
    if acc.contains k then acc else acc ++ [k]) []
  keys.map (fun k =>
    let members := evs.filter (fun e => fieldVal e g == k)
    let ts := members.map (·.timestamp)
    .huntGroup k members.length
      (ts.foldl (fun m t => some ((m.map (min t)).getD t)) none)
      (ts.foldl (fun m t => some ((m.map (max t)).getD t)) none))

/-- Group rows for AGGREGATE with the selected aggregation members
(`Count('id')`, `Sum('id')`, `Avg('id')`, `Min('timestamp')`,
`Max('timestamp')`). -/
def aggGroups (evs : List SecurityEvent) (g : String) (aggs : List String) : List PRow :=
  let keys := evs.foldl (fun acc e =>
    let k := fieldVal e g
    if acc.contains k then acc else acc ++ [k]) []
  keys.map (fun k =>
    let members := evs.filter (fun e => fieldVal e g == k)
    let ids : List Int := members.map (fun e => (e.id : Int))
    let ts := members.map (·.timestamp)
    .aggGroup k
      (if aggs.contains "COUNT" then some members.length else none)
      (if aggs.contains "SUM" then some ids.sum else none)
      (if aggs.contains "AVG" then
        (if members.length == 0 then none
         else some ((ids.sum : Rat) / (members.length : Rat))) else none)
      (if aggs.contains "MIN" then ts.foldl (fun m t => some ((m.map (min t)).getD t)) none else none)
      (if aggs.contains "MAX" then ts.foldl (fun m t => some ((m.map (max t)).getD t)) none else none))

/-- The `count` member of a group row (for `order_by('-count')`). -/
def rowCount : PRow → Nat
  | .huntGroup _ c _ _ => c
  | .aggGroup _ c _ _ _ _ => c.getD 0
  | .ev _ => 0

/-- The model's default row order: the `SecurityEvent` model's
`Meta.ordering = ['-timestamp']`, which governs scans without an
explicit `order_by`. -/
def defaultOrder (evs : List SecurityEvent) : List SecurityEvent :=
  stableSortBy (fun a b => b.timestamp ≤ a.timestamp) evs

/-- The order field a SEARCH resolves (`ast.get('order_by') or
'timestamp'`, then `FIELD_MAP.get(...)`). -/
def searchOrderField (a : SearchAst) : String :=
  let ob0 :=
    match a.order_by with
    | some s => if pyTruthy s then s else "timestamp"
    | none => "timestamp"
  mapField ob0

/-- `PQLExecutor._execute_search`.  Django resolves an explicit
`order_by` field only when the queryset is evaluated, i.e. after the
slicing line, so an unknown order field errors after a negative slice
bound would have. -/
def executeSearch (store : List SecurityEvent) (now : Int) (a : SearchAst) :
    Except String (List PRow) :=
  let qs := applyConditions store (buildQObjects now a.conditions)
  let ob := searchOrderField a
  let sorted :=
    if a.order_dir == "DESC" then
      stableSortBy (fun x y => pvLe (fieldVal y ob) (fieldVal x ob)) qs
    else
      stableSortBy (fun x y => pvLe (fieldVal x ob) (fieldVal y ob)) qs
  match djangoSlice (sorted.map .ev) a.offset (a.offset + a.limit) with
  | .error msg => .error msg
  | .ok rows =>
      if !isValidField ob then .error "FieldError: cannot resolve order field"
      else .ok rows

/-- `PQLExecutor._execute_hunt`.  A grouped hunt validates the group
field eagerly at the `.values(group_by)` call (Django `FieldError`,
not caught here). -/
def executeHunt (store : List SecurityEvent) (now : Int) (a : HuntAst) :
    Except String (List PRow) :=
  let qs := applyConditions store (buildQObjects now a.conditions)
  match a.group_by with
  | some g =>
      let g' := mapField g
      if !isValidField g' then .error "FieldError: cannot resolve group field"
      else
        let rows := stableSortBy (fun x y => rowCount y ≤ rowCount x) (huntGroups qs g')
        match djangoSlice rows 0 a.limit with
        | .error msg => .error msg
        | .ok out => .ok out
  | none =>
      match djangoSlice ((defaultOrder qs).map .ev) 0 a.limit with
      | .error msg => .error msg
      | .ok out => .ok out

/-- `PQLExecutor._execute_aggregate`.  Two ORM behaviors shape this
path, both caused by `q_objects = self._build_q_objects(...)` keeping
the returned *pair* instead of unpacking it:

* `if q_objects:` is always true (a non-empty tuple), so
  `queryset.filter(q_objects)` always runs with the pair as positional
  argument.  `QuerySet.filter` builds the WHERE clause eagerly
  (`Query.add_q`); the pair becomes a child of `Q(...)`, and
  `sql.Query.build_filter` unpacks it as `arg, value = filter_expr`
  followed by `if not arg: raise FieldError("Cannot parse keyword
  query %r" % arg)`.  So when the built `Q` is `None` the call raises
  `FieldError`, the `except` arm catches it and substitutes
  `SecurityEvent.objects.none()` — an empty scan.  When the built `Q`
  is a `Q` object, `build_filter` goes on to
  `solve_lookup_type(arg)`, which calls `arg.split(LOOKUP_SEP)` and
  raises `AttributeError` (`Q` has no `split`); not a `FieldError`, so
  the `except` arm re-raises and the query fails.
* A grouped aggregate always orders by `'-count'`; unless a `COUNT`
  aggregation was selected there is no `count` member, and Django
  raises `FieldError` when the queryset is evaluated at
  `list(queryset[:100])` — even though the surviving queryset is
  empty, since order-field resolution precedes the empty-result
  short-circuit in the SQL compiler. -/
def executeAggregate (store : List SecurityEvent) (now : Int) (a : AggAst) :
    Except String (List PRow) :=
  let qs0 : List SecurityEvent :=
    match a.within with
    | some (.pstr s) =>
        let t := parseTimeValue now s
        store.filter (fun e => decide (t ≤ e.timestamp))
    | some (.ptime t) => store.filter (fun e => decide (t ≤ e.timestamp))
    | _ => store
  let pair := buildQObjects now a.conditions
  match pair.1 with
  | some _ => .error "AttributeError: Q object has no attribute split"
  | none =>
      -- `qs0` (the WITHIN-filtered scan) is dead here: the caught
      -- `FieldError` replaces the whole queryset with `objects.none()`
      let qs : List SecurityEvent := []
      match a.group_by with
      | some g =>
          let g' := mapField g
          if !isValidField g' then .error "FieldError: cannot resolve group field"
          else if !a.aggregations.contains "COUNT" then
            .error "FieldError: cannot resolve order field count"
          else
            let rows := stableSortBy (fun x y => rowCount y ≤ rowCount x) (aggGroups qs g' a.aggregations)
            .ok (rows.take 100)
      | none => .ok (((defaultOrder qs).map PRow.ev).take 100)

/-- A parsed PQL command. -/
inductive PqlAst where
  | search (a : SearchAst)
  | hunt (a : HuntAst)
  | agg (a : AggAst)
  deriving Repr, DecidableEq

/-- `PQLExecutor.execute`. -/
def execute (store : List SecurityEvent) (now : Int) : PqlAst → Except String (List PRow)
  | .search a => executeSearch store now a
  | .hunt a => executeHunt store now a
  | .agg a => executeAggregate store now a

/-- The limit carried in an AST dict (`ast['limit']`, absent only for
a fresh AGGREGATE). -/
def astLimit : PqlAst → Option Int
  | .search a => some a.limit
  | .hunt a => some a.limit
  | .agg a => a.limit

/-- The caller-limit override step of `execute_pql`
(`if limit and isinstance(limit, int) and 1 <= limit <= 5000: ...`).
`none` models a falsy `limit` argument (`None`; `0` behaves the
same way, rejected by `1 <= limit`). -/
def applyLimitOverride (ast : PqlAst) (limit : Option Int) : PqlAst :=
  match limit with
  | none => ast
  | some l =>
      if 1 ≤ l && l ≤ 5000 then
        match ast with
        | .search a => if l < a.limit then .search { a with limit := l } else ast
        | .hunt a => if l < a.limit then .hunt { a with limit := l } else ast
        | .agg a =>
            match a.limit with
            | none => .agg { a with limit := some l }
            | some al => if l < al then .agg { a with limit := some l } else ast
      else ast

/-! ## Concrete scenarios used by the theorems -/

/-- A THRESHOLD rule firing on a single matching event (threshold 1),
with a 10-minute cooldown. -/
def c1rule : DetectionRule :=
  { id := 2, name := "AnyLogon", severity := "LOW", rule_type := "THRESHOLD",
    logic := { event_ids := some [4624], threshold := some 1 },
    cooldown_minutes := 10, min_confidence := 0 }

/-- A matching, non-system event for `c1rule`. -/
def c1event : SecurityEvent :=
  { id := 201, event_id := 4624, timestamp := 0, hostname := "ws2",
    user_name := "bob", target_user_name := "", source_ip := "",
    process_name := "", service_name := "" }

/-- An enabled, never-expiring suppression rule for `c1rule` whose one
condition matches `c1event`'s hostname. -/
def c1sup : AlertSuppressionRule :=
  { id := 7, detection_rule := 2, conditions := [("hostname", .list ["ws2"])],
    enabled := true, expires_at := none }

/-- Fresh state holding `c1rule` and the active suppression `c1sup`. -/
def c1state : EngineState :=
  { rules := [c1rule], trackers := [], alerts := [], suppressions := [c1sup] }

/-! ## Claim theorems -/

/-- C9: for every event whose `event_id` is in the fixed noise set,
`process_event` returns an empty alert list and leaves the whole
engine state — trackers included — unchanged. -/
theorem C9_noise_events_short_circuit (st : EngineState) (e : SecurityEvent)
    (now : Int) (h : NOISE_EVENT_IDS.contains e.event_id = true) :
    processEvent st e now = ([], st) := by
  unfold processEvent
  rw [h]
  simp

/-- Witness for C9 at event id 4798 on a populated state. -/
theorem C9_witness :
    processEvent c1state { c1event with event_id := 4798 } 5 = ([], c1state) :=
  C9_noise_events_short_circuit c1state { c1event with event_id := 4798 } 5 (by decide)

/-- Helper: `evaluate_rule` returns `(none, st)` whenever the
system-account exclusion guard holds (whichever way the earlier
event-id test goes). -/
theorem evaluateRule_of_systemExcluded (rule : DetectionRule) (st : EngineState)
    (e : SecurityEvent) (now : Int) (s t : Bool)
    (hguard : systemExcluded rule.logic s t = true) :
    evaluateRule rule e s t st now = (none, st) := by
  simp [evaluateRule, hguard]

/-- C10: `is_system_account` holds for the empty/missing user name, and
any rule whose `logic` leaves `exclude_system_accounts` truthy (the
default) yields no alert and leaves the state untouched on an event
whose `user_name` and `target_user_name` are both empty. -/
theorem C10_empty_user_is_system (rule : DetectionRule) (st : EngineState)
    (e : SecurityEvent) (now : Int) (hu : e.user_name = "")
    (ht : e.target_user_name = "")
    (hex : rule.logic.exclude_system_accounts.getD true = true) :
    isSystemAccount "" = true ∧
      evaluateRule rule e (isSystemAccount e.user_name)
        (isSystemAccount e.target_user_name) st now = (none, st) := by
  refine ⟨rfl, ?_⟩
  have h1 : isSystemAccount e.user_name = true := by rw [hu]; rfl
  have h2 : isSystemAccount e.target_user_name = true := by rw [ht]; rfl
  rw [h1, h2]
  exact evaluateRule_of_systemExcluded rule st e now true true
    (by simp [systemExcluded, hex])

/-- Witness for C10: an all-empty-identity event against a rule with
default exclusion, on the `c1state` scenario. -/
theorem C10_witness :
    isSystemAccount "" = true ∧
      evaluateRule c1rule { c1event with user_name := "", target_user_name := "" }
        (isSystemAccount "") (isSystemAccount "") c1state 0 = (none, c1state) :=
  C10_empty_user_is_system c1rule c1state
    { c1event with user_name := "", target_user_name := "" } 0 rfl rfl (by decide)

/-- C7: a suffixed numeric token `⟨digits⟩u` with `u ∈ s/m/h/d/w`
resolves at reference instant `now` to `now - amount·unit`, and a
malformed suffixed value (shorter than 2 characters, or a
non-integer amount) resolves to `now` itself.  (Instants are absolute
integers in the model, so the resolved value is "timezone-aware" by
construction.) -/
theorem C7_time_value_resolution (now : Int) (v : String) :
    (v.length < 2 → parseTimeValue now v = now) ∧
    (∀ (n secs : Int), 2 ≤ v.length → parsePyInt (pyDropLast v) = some n →
      unitSeconds (pyLastChar v).toLower = some secs →
      parseTimeValue now v = now - n * secs) ∧
    (2 ≤ v.length → parsePyInt (pyDropLast v) = none →
      parseTimeValue now v = now) := by
  refine ⟨?_, ?_, ?_⟩
  · intro h
    simp [parseTimeValue, h]
  · intro n secs hlen hp hu
    have hnot : ¬ v.length < 2 := by omega
    simp [parseTimeValue, hnot, hp, hu]
  · intro hlen hp
    have hnot : ¬ v.length < 2 := by omega
    simp [parseTimeValue, hnot, hp]

/-- Witness for C7: `"24h"` at reference instant 1000 resolves to
`1000 - 24·3600`, and the malformed `"2.5h"` resolves to 1000. -/
theorem C7_witness :
    parseTimeValue 1000 "24h" = 1000 - 24 * 3600 ∧
      parseTimeValue 1000 "2.5h" = 1000 :=
  ⟨(C7_time_value_resolution 1000 "24h").2.1 24 3600 (by decide) (by decide)
      (by decide),
   (C7_time_value_resolution 1000 "2.5h").2.2 (by decide) (by decide)⟩

/-- C1 (refuted — the code never consults suppression): in `c1state`
an enabled, unexpired suppression rule for `c1rule` matches `c1event`
(`check_suppression` returns true), the rule's firing condition is met,
and yet `process_event` creates and persists exactly one alert and
increments the rule's `total_alerts` — `create_alert` has no
suppression check. -/
theorem C1_suppression_never_consulted :
    checkSuppression c1state c1rule c1event 0 = true ∧
      (processEvent c1state c1event 0).1.length = 1 ∧
      (processEvent c1state c1event 0).2.alerts.length = 1 ∧
      (processEvent c1state c1event 0).2.rules.map DetectionRule.total_alerts = [1] := by
  refine ⟨by decide, ?_, ?_, ?_⟩ <;> rfl

/-- Helper: an alert actually created by `create_alert` carries exactly
the confidence the caller computed. -/
theorem createAlert_confidence (st : EngineState) (rule : DetectionRule)
    (e : SecurityEvent) (tracker : EntityTracker) (ttl dsc : String) (conf : Int)
    (extra : Option Nat) (now : Int) (a : DetectionAlert) (st' : EngineState)
    (h : createAlert st rule e tracker ttl dsc conf extra now = (some a, st')) :
    a.confidence = conf := by
  simp only [createAlert] at h
  split at h
  · simp at h
  · split at h
    · simp at h
    · simp only [Prod.mk.injEq, Option.some.injEq] at h
      rw [← h.1]

/-! Scenario for C4: the spec's `threshold=5` example.  The rule's
`min_confidence` is 50 so the first-reaching confidence 50 passes the
creation gate, and the alert store starts empty so cooldown cannot
interfere. -/

def c4rule : DetectionRule :=
  { id := 1, name := "BruteForce", severity := "HIGH", rule_type := "THRESHOLD",
    logic := { event_ids := some [4625], threshold := some 5,
               window_minutes := some 10 },
    cooldown_minutes := 60, min_confidence := 50 }

def c4event (i : Nat) : SecurityEvent :=
  { id := 100 + i, event_id := 4625, timestamp := 1000 + (i : Int), hostname := "ws1",
    user_name := "alice", target_user_name := "", source_ip := "",
    process_name := "", service_name := "" }

def c4state : EngineState :=
  { rules := [c4rule], trackers := [], alerts := [], suppressions := [] }

def c4run1 : List DetectionAlert × EngineState := processEvent c4state (c4event 1) 2000
def c4run2 : List DetectionAlert × EngineState := processEvent c4run1.2 (c4event 2) 2000
def c4run3 : List DetectionAlert × EngineState := processEvent c4run2.2 (c4event 3) 2000
def c4run4 : List DetectionAlert × EngineState := processEvent c4run3.2 (c4event 4) 2000
def c4run5 : List DetectionAlert × EngineState := processEvent c4run4.2 (c4event 5) 2000

/-- C4: THRESHOLD evaluation attempts an alert exactly when the
windowed count of matching event ids reaches the threshold and any
`unique_threshold` constraint is met, with confidence
`min(100, 50 + (count − threshold)·10)`; the first event to reach the
threshold gets confidence 50; and in the concrete `threshold=5` run,
events 1–4 yield no alert while the 5th yields exactly one alert of
confidence 50. -/
theorem C4_threshold_rule_semantics (rule : DetectionRule) (e : SecurityEvent)
    (tracker : EntityTracker) (st : EngineState) (now : Int) :
    (tracker.getTotalCount (some (rule.logic.event_ids.getD [e.event_id])) <
        rule.logic.threshold.getD 5 →
      evaluateThreshold rule e tracker st now = (none, st)) ∧
    (∀ uf umin, rule.logic.unique_threshold = some (uf, umin) →
      tracker.getUniqueCount uf < umin →
      evaluateThreshold rule e tracker st now = (none, st)) ∧
    (rule.logic.threshold.getD 5 ≤
        tracker.getTotalCount (some (rule.logic.event_ids.getD [e.event_id])) →
      (∀ uf umin, rule.logic.unique_threshold = some (uf, umin) →
        umin ≤ tracker.getUniqueCount uf) →
      evaluateThreshold rule e tracker st now =
        createAlert st rule e tracker (entityAlertTitle rule tracker)
          (thresholdDescription rule tracker
            (tracker.getTotalCount (some (rule.logic.event_ids.getD [e.event_id])))
            (rule.logic.threshold.getD 5))
          (thresholdConfidence
            (tracker.getTotalCount (some (rule.logic.event_ids.getD [e.event_id])))
            (rule.logic.threshold.getD 5)) none now) ∧
    (∀ th : Nat, thresholdConfidence th th = 50) ∧
    (c4run1.1 = [] ∧ c4run2.1 = [] ∧ c4run3.1 = [] ∧ c4run4.1 = [] ∧
      c4run5.1.map DetectionAlert.confidence = [50] ∧
      c4run5.2.alerts.length = 1) := by
  refine ⟨?_, ?_, ?_, ?_, rfl, rfl, rfl, rfl, rfl, rfl⟩
  · intro h
    have hn : ¬ rule.logic.threshold.getD 5 ≤
        tracker.getTotalCount (some (rule.logic.event_ids.getD [e.event_id])) := by
      omega
    simp [evaluateThreshold, hn]
  · intro uf umin hut hlt
    have hn : ¬ umin ≤ tracker.getUniqueCount uf := by omega
    by_cases hth : rule.logic.threshold.getD 5 ≤
        tracker.getTotalCount (some (rule.logic.event_ids.getD [e.event_id]))
    · simp [evaluateThreshold, hth, hut, hn]
    · simp [evaluateThreshold, hth]
  · intro hth hok
    cases hu : rule.logic.unique_threshold with
    | none => simp [evaluateThreshold, hth, hu]
    | some ut =>
        have := hok ut.1 ut.2 (by rw [hu])
        simp [evaluateThreshold, hth, hu, this]
  · intro th
    simp [thresholdConfidence]

/-- Witness for C4: below-threshold and at-threshold instances on a
concrete tracker. -/
theorem C4_witness :
    evaluateThreshold c4rule (c4event 1)
        { entity_type := "USER_NAME", entity_value := "alice", hostname := "ws1",
          window_start := 0, window_end := 600, event_counts := [(4625, 2)],
          unique_values := [], event_ids := [101, 102], last_event_time := 0 }
        c4state 2000 = (none, c4state) ∧
      evaluateThreshold c4rule (c4event 1)
          { entity_type := "USER_NAME", entity_value := "alice", hostname := "ws1",
            window_start := 0, window_end := 600, event_counts := [(4625, 5)],
            unique_values := [], event_ids := [101, 102, 103, 104, 105],
            last_event_time := 0 }
          c4state 2000 =
        createAlert c4state c4rule (c4event 1)
          { entity_type := "USER_NAME", entity_value := "alice", hostname := "ws1",
            window_start := 0, window_end := 600, event_counts := [(4625, 5)],
            unique_values := [], event_ids := [101, 102, 103, 104, 105],
            last_event_time := 0 }
          (entityAlertTitle c4rule
            { entity_type := "USER_NAME", entity_value := "alice", hostname := "ws1",
              window_start := 0, window_end := 600, event_counts := [(4625, 5)],
              unique_values := [], event_ids := [101, 102, 103, 104, 105],
              last_event_time := 0 })
          (thresholdDescription c4rule
            { entity_type := "USER_NAME", entity_value := "alice", hostname := "ws1",
              window_start := 0, window_end := 600, event_counts := [(4625, 5)],
              unique_values := [], event_ids := [101, 102, 103, 104, 105],
              last_event_time := 0 } 5 5)
          (thresholdConfidence 5 5) none 2000 :=
  ⟨(C4_threshold_rule_semantics c4rule (c4event 1) _ c4state 2000).1 (by decide),
   (C4_threshold_rule_semantics c4rule (c4event 1) _ c4state 2000).2.2.1 (by decide)
     (by intro uf umin h; simp [c4rule] at h)⟩

/-! Scenario for C5: a threshold-1 rule with a 10-minute cooldown;
triggers at wall-clock 0, 60 (inside cooldown) and 700 (after
expiry). -/

def c5state : EngineState :=
  { rules := [c1rule], trackers := [], alerts := [], suppressions := [] }

def c5event (i : Nat) (ts : Int) : SecurityEvent :=
  { id := 200 + i, event_id := 4624, timestamp := ts, hostname := "ws2",
    user_name := "bob", target_user_name := "", source_ip := "",
    process_name := "", service_name := "" }

def c5run1 : List DetectionAlert × EngineState := processEvent c5state (c5event 1 0) 0
def c5run2 : List DetectionAlert × EngineState := processEvent c5run1.2 (c5event 2 60) 60
def c5run3 : List DetectionAlert × EngineState := processEvent c5run2.2 (c5event 3 700) 700

/-- C5: with a positive cooldown, `create_alert` refuses to create an
alert while some alert of the same rule, matching the tracked entity
key under the entity-type-specific matching of `check_cooldown`, was
triggered within the last `cooldown_minutes`; concretely, two
qualifying triggers 60 s apart under a 10-minute cooldown yield one
alert, and a third after expiry yields the second. -/
theorem C5_cooldown_blocks_creation (st : EngineState) (rule : DetectionRule)
    (e : SecurityEvent) (tracker : EntityTracker) (ttl dsc : String)
    (conf : Int) (extra : Option Nat) (now : Int) (a₀ : DetectionAlert)
    (hcd : 0 < rule.cooldown_minutes) (hmem : a₀ ∈ st.alerts)
    (hrule : a₀.rule_id = rule.id)
    (htime : now - rule.cooldown_minutes * 60 ≤ a₀.triggered_at)
    (hmatch : cooldownEntityMatch tracker.entity_type tracker.entity_value a₀ = true) :
    createAlert st rule e tracker ttl dsc conf extra now = (none, st) ∧
      (c5run1.1.length = 1 ∧ c5run2.1 = [] ∧ c5run2.2.alerts.length = 1 ∧
        c5run3.1.length = 1 ∧ c5run3.2.alerts.length = 2) := by
  refine ⟨?_, rfl, rfl, rfl, rfl, rfl⟩
  have hcheck : checkCooldown st rule tracker.entity_value tracker.entity_type now = true := by
    unfold checkCooldown
    have h0 : ¬ rule.cooldown_minutes ≤ 0 := by omega
    simp only [h0, if_false]
    refine List.any_eq_true.mpr ⟨a₀, List.mem_filter.mpr ⟨hmem, ?_⟩, hmatch⟩
    simp [hrule, htime]
  simp [createAlert, hcheck]

/-- Witness for C5: a prior alert for `c1rule` on entity "bob" 60 s ago
blocks a new creation. -/
theorem C5_witness :
    createAlert c5run1.2 c1rule (c5event 2 60)
        { entity_type := "USER_NAME", entity_value := "bob", hostname := "ws2",
          window_start := 0, window_end := 600, event_counts := [(4624, 2)],
          unique_values := [], event_ids := [201, 202], last_event_time := 60 }
        "t" "d" 60 none 60 = (none, c5run1.2) ∧
      (c5run1.1.length = 1 ∧ c5run2.1 = [] ∧ c5run2.2.alerts.length = 1 ∧
        c5run3.1.length = 1 ∧ c5run3.2.alerts.length = 2) :=
  C5_cooldown_blocks_creation c5run1.2 c1rule (c5event 2 60) _ "t" "d" 60 none 60
    (c5run1.2.alerts.headD default)
    (by decide) (by decide) (by decide) (by decide) (by decide)

/-- C6: SEQUENCE evaluation attempts an alert only when every step's
cumulative count is satisfied and the triggering event id belongs to
the final step; any alert it creates has confidence exactly 85; and a
triggering event outside the final step never fires, whatever the
counts. -/
theorem C6_sequence_rule_semantics (rule : DetectionRule) (e : SecurityEvent)
    (tracker : EntityTracker) (st : EngineState) (now : Int) :
    (∀ a st', evaluateSequence rule e tracker st now = (some a, st') →
      2 ≤ (rule.logic.sequence.getD []).length ∧
        (∀ s ∈ rule.logic.sequence.getD [], stepSatisfied tracker s = true) ∧
        ((rule.logic.sequence.getD []).getLastD {}).ids.contains (some e.event_id) = true ∧
        a.confidence = 85) ∧
    (((rule.logic.sequence.getD []).getLastD {}).ids.contains (some e.event_id) = false →
      evaluateSequence rule e tracker st now = (none, st)) ∧
    (2 ≤ (rule.logic.sequence.getD []).length →
      (∀ s ∈ rule.logic.sequence.getD [], stepSatisfied tracker s = true) →
      ((rule.logic.sequence.getD []).getLastD {}).ids.contains (some e.event_id) = true →
      evaluateSequence rule e tracker st now =
        createAlert st rule e tracker (entityAlertTitle rule tracker)
          (sequenceDescription tracker) 85 none now) := by
  refine ⟨?_, ?_, ?_⟩
  · intro a st' h
    simp only [evaluateSequence] at h
    split at h
    · simp at h
    · split at h
      · split at h
        · simp at h
        · rename_i hlen hall hfin
          refine ⟨by omega, List.all_eq_true.mp hall, ?_,
            createAlert_confidence _ _ _ _ _ _ _ _ _ _ _ h⟩
          cases hc : ((rule.logic.sequence.getD []).getLastD {}).ids.contains (some e.event_id)
          · rw [hc] at hfin
            simp at hfin
          · rfl
      · simp at h
  · intro hfin
    simp only [evaluateSequence]
    split
    · rfl
    · split
      · rw [hfin]
        simp
      · rfl
  · intro hlen hall hfin
    have hn : ¬ (rule.logic.sequence.getD []).length < 2 := by omega
    simp only [evaluateSequence]
    rw [if_neg hn, if_pos (List.all_eq_true.mpr hall), hfin]
    simp

/-- Witness for C6: a two-step 4625×5-then-4624 sequence; event 4625
(non-final) does not fire even with counts satisfied, and event 4624
fires the `create_alert` attempt with confidence 85. -/
theorem C6_witness :
    evaluateSequence
        { id := 3, name := "BFSuccess", severity := "HIGH", rule_type := "SEQUENCE",
          logic := { sequence := some [{ event_ids := some [4625], count := some 5 },
                                       { event_ids := some [4624], count := some 1 }] } }
        { id := 300, event_id := 4625, timestamp := 0, hostname := "h",
          user_name := "bob", target_user_name := "", source_ip := "",
          process_name := "", service_name := "" }
        { entity_type := "USER_NAME", entity_value := "bob", hostname := "h",
          window_start := 0, window_end := 600,
          event_counts := [(4625, 5), (4624, 1)], unique_values := [],
          event_ids := [1, 2, 3, 4, 5, 6], last_event_time := 0 }
        c5state 0 = (none, c5state) ∧
      evaluateSequence
          { id := 3, name := "BFSuccess", severity := "HIGH", rule_type := "SEQUENCE",
            logic := { sequence := some [{ event_ids := some [4625], count := some 5 },
                                         { event_ids := some [4624], count := some 1 }] } }
          { id := 300, event_id := 4624, timestamp := 0, hostname := "h",
            user_name := "bob", target_user_name := "", source_ip := "",
            process_name := "", service_name := "" }
          { entity_type := "USER_NAME", entity_value := "bob", hostname := "h",
            window_start := 0, window_end := 600,
            event_counts := [(4625, 5), (4624, 1)], unique_values := [],
            event_ids := [1, 2, 3, 4, 5, 6], last_event_time := 0 }
          c5state 0 =
        createAlert c5state
          { id := 3, name := "BFSuccess", severity := "HIGH", rule_type := "SEQUENCE",
            logic := { sequence := some [{ event_ids := some [4625], count := some 5 },
                                         { event_ids := some [4624], count := some 1 }] } }
          { id := 300, event_id := 4624, timestamp := 0, hostname := "h",
            user_name := "bob", target_user_name := "", source_ip := "",
            process_name := "", service_name := "" }
          { entity_type := "USER_NAME", entity_value := "bob", hostname := "h",
            window_start := 0, window_end := 600,
            event_counts := [(4625, 5), (4624, 1)], unique_values := [],
            event_ids := [1, 2, 3, 4, 5, 6], last_event_time := 0 }
          (entityAlertTitle
            { id := 3, name := "BFSuccess", severity := "HIGH", rule_type := "SEQUENCE",
              logic := { sequence := some [{ event_ids := some [4625], count := some 5 },
                                           { event_ids := some [4624], count := some 1 }] } }
            { entity_type := "USER_NAME", entity_value := "bob", hostname := "h",
              window_start := 0, window_end := 600,
              event_counts := [(4625, 5), (4624, 1)], unique_values := [],
              event_ids := [1, 2, 3, 4, 5, 6], last_event_time := 0 })
          (sequenceDescription
            { entity_type := "USER_NAME", entity_value := "bob", hostname := "h",
              window_start := 0, window_end := 600,
              event_counts := [(4625, 5), (4624, 1)], unique_values := [],
              event_ids := [1, 2, 3, 4, 5, 6], last_event_time := 0 })
          85 none 0 :=
  ⟨(C6_sequence_rule_semantics _ _ _ c5state 0).2.1 (by decide),
   (C6_sequence_rule_semantics _ _ _ c5state 0).2.2 (by decide)
     (by decide) (by decide)⟩

/-! ## Tracker-accumulation infrastructure for C8 -/

/-- The tracker belongs to the given (entity type, entity value,
hostname) key. -/
def trackerKeyIs (A B C : String) (t : EntityTracker) : Bool :=
  t.entity_type == A && t.entity_value == B && t.hostname == C

/-- Sum of a tracker measure over the trackers of one entity key. -/
def keySum (A B C : String) (f : EntityTracker → Nat) : List EntityTracker → Nat
  | [] => 0
  | t :: ts => (if trackerKeyIs A B C t then f t else 0) + keySum A B C f ts

/-- Total occurrence count recorded for one event id, over all trackers
of an entity key (the claim's "per-event-id counter"). -/
def keyCount (A B C : String) (eid : Int) (ts : List EntityTracker) : Nat :=
  keySum A B C (fun t => t.getEventCount eid) ts

/-- Number of times a stored event's database id appears in the
`event_ids` lists of an entity key's trackers. -/
def keyIdOcc (A B C : String) (dbid : Nat) (ts : List EntityTracker) : Nat :=
  keySum A B C (fun t => t.event_ids.count dbid) ts

theorem alistGet_bump (d : List (Int × Nat)) (k : Int) :
    alistGet (alistBump d k) k = alistGet d k + 1 := by
  induction d with
  | nil => simp [alistBump, alistGet]
  | cons kv rest ih =>
      by_cases h : kv.1 == k
      · simp [alistBump, alistGet, h]
      · simp [alistBump, alistGet, h, ih]

theorem findFirst_spec (p : EntityTracker → Bool) :
    ∀ (l : List EntityTracker) (i : Nat) (t : EntityTracker),
      findFirst l p = some (i, t) → l[i]? = some t ∧ p t = true := by
  intro l
  induction l with
  | nil => intro i t h; simp [findFirst] at h
  | cons a as ih =>
      intro i t h
      by_cases hp : p a
      · simp [findFirst, hp] at h
        obtain ⟨hi, ht⟩ := h
        subst hi; subst ht
        exact ⟨by simp, hp⟩
      · rw [show findFirst (a :: as) p =
            (findFirst as p).map (fun it => (it.1 + 1, it.2)) from by
          simp [findFirst, hp]] at h
        match hfa : findFirst as p with
        | none => rw [hfa] at h; simp at h
        | some (j, t') =>
            rw [hfa] at h
            simp only [Option.map_some', Option.some.injEq, Prod.mk.injEq] at h
            obtain ⟨hi, ht⟩ := h
            obtain ⟨hg, hpt⟩ := ih j t' hfa
            rw [← ht, ← hi]
            exact ⟨by simpa using hg, hpt⟩

theorem keySum_set (A B C : String) (f : EntityTracker → Nat) :
    ∀ (l : List EntityTracker) (i : Nat) (t t' : EntityTracker),
      l[i]? = some t → trackerKeyIs A B C t = true →
      trackerKeyIs A B C t' = true → f t' = f t + 1 →
      keySum A B C f (l.set i t') = keySum A B C f l + 1 := by
  intro l
  induction l with
  | nil => intro i t t' h; simp at h
  | cons a as ih =>
      intro i t t' hg hk hk' hf
      cases i with
      | zero =>
          simp at hg
          subst hg
          simp [List.set, keySum, hk, hk', hf]
          omega
      | succ n =>
          simp at hg
          have := ih n t t' hg hk hk' hf
          simp [List.set, keySum, this]
          omega

theorem keySum_append_last (A B C : String) (f : EntityTracker → Nat)
    (l : List EntityTracker) (t : EntityTracker) (hk : trackerKeyIs A B C t = true) :
    keySum A B C f (l ++ [t]) = keySum A B C f l + f t := by
  induction l with
  | nil => simp [keySum, hk]
  | cons a as ih => simp [keySum, ih]; omega

theorem set_append_last (l : List EntityTracker) (a b : EntityTracker) :
    (l ++ [a]).set l.length b = l ++ [b] := by
  induction l with
  | nil => rfl
  | cons x xs ih => simp [List.set, ih]

/-- The `track_unique` loop never touches counters, event ids, the key
fields or the window. -/
theorem trackUniqueFold_fields (e : SecurityEvent) :
    ∀ (fields : List String) (t : EntityTracker),
      (trackUniqueFold e fields t).event_counts = t.event_counts ∧
      (trackUniqueFold e fields t).event_ids = t.event_ids ∧
      (trackUniqueFold e fields t).entity_type = t.entity_type ∧
      (trackUniqueFold e fields t).entity_value = t.entity_value ∧
      (trackUniqueFold e fields t).hostname = t.hostname ∧
      (trackUniqueFold e fields t).window_end = t.window_end := by
  intro fields
  induction fields with
  | nil => intro t; exact ⟨rfl, rfl, rfl, rfl, rfl, rfl⟩
  | cons f fs ih =>
      intro t
      have hstep :
          (trackUniqueFold e (f :: fs) t) = trackUniqueFold e fs
            (match e.getAttr f with
             | some v => if pyTruthy v then t.addUniqueValue f v else t
             | none => t) := rfl
      rw [hstep]
      match e.getAttr f with
      | none => exact ih t
      | some v =>
          by_cases hv : pyTruthy v
          · simp only [hv, if_true]
            have := ih (t.addUniqueValue f v)
            simpa [EntityTracker.addUniqueValue] using this
          · simp only [hv]
            simpa using ih t

/-- Field equations for the in-memory update `updatedTracker`. -/
theorem updatedTracker_fields (rule : DetectionRule) (e : SecurityEvent)
    (t : EntityTracker) :
    (updatedTracker rule e t).getEventCount e.event_id = t.getEventCount e.event_id + 1 ∧
    (updatedTracker rule e t).event_ids.count e.id = t.event_ids.count e.id + 1 ∧
    (updatedTracker rule e t).entity_type = t.entity_type ∧
    (updatedTracker rule e t).entity_value = t.entity_value ∧
    (updatedTracker rule e t).hostname = t.hostname ∧
    (updatedTracker rule e t).window_end = t.window_end := by
  obtain ⟨h1, h2, h3, h4, h5, h6⟩ :=
    trackUniqueFold_fields e (rule.logic.track_unique.getD [])
      { t.incrementEvent e.event_id e.id with last_event_time := e.timestamp }
  unfold updatedTracker
  refine ⟨?_, ?_, ?_, ?_, ?_, ?_⟩
  · show EntityTracker.getEventCount _ e.event_id = _
    unfold EntityTracker.getEventCount
    rw [h1]
    simpa [EntityTracker.incrementEvent, EntityTracker.getEventCount] using
      alistGet_bump t.event_counts e.event_id
  · rw [h2]
    simp [EntityTracker.incrementEvent, List.count_append]
  · rw [h3]; rfl
  · rw [h4]; rfl
  · rw [h5]; rfl
  · rw [h6]; rfl

/-- `create_alert` never touches trackers, and only bumps
`total_alerts` inside the rule table (every rule's `logic` survives). -/
theorem createAlert_state (st : EngineState) (rule : DetectionRule)
    (e : SecurityEvent) (tracker : EntityTracker) (ttl dsc : String)
    (conf : Int) (extra : Option Nat) (now : Int) :
    ((createAlert st rule e tracker ttl dsc conf extra now).2).trackers = st.trackers ∧
      ((createAlert st rule e tracker ttl dsc conf extra now).2).rules.map
        (fun r => r.logic) = st.rules.map (fun r => r.logic) := by
  simp only [createAlert]
  split
  · exact ⟨rfl, rfl⟩
  · split
    · exact ⟨rfl, rfl⟩
    · refine ⟨rfl, ?_⟩
      simp only [List.map_map]
      apply List.map_congr_left
      intro r _
      simp only [Function.comp]
      split <;> rfl

/-- The four `rule_type` dispatchers only gate `create_alert`: trackers
and rule `logic`s are untouched. -/
theorem dispatch_state (rule : DetectionRule) (e : SecurityEvent)
    (t : EntityTracker) (st : EngineState) (now : Int) :
    ((evaluateThreshold rule e t st now).2.trackers = st.trackers ∧
      (evaluateThreshold rule e t st now).2.rules.map (fun x => x.logic) =
        st.rules.map (fun x => x.logic)) ∧
    ((evaluateSequence rule e t st now).2.trackers = st.trackers ∧
      (evaluateSequence rule e t st now).2.rules.map (fun x => x.logic) =
        st.rules.map (fun x => x.logic)) ∧
    ((evaluatePattern rule e t st now).2.trackers = st.trackers ∧
      (evaluatePattern rule e t st now).2.rules.map (fun x => x.logic) =
        st.rules.map (fun x => x.logic)) ∧
    ((evaluateCorrelation rule e t st now).2.trackers = st.trackers ∧
      (evaluateCorrelation rule e t st now).2.rules.map (fun x => x.logic) =
        st.rules.map (fun x => x.logic)) := by
  refine ⟨?_, ?_, ?_, ?_⟩
  · simp only [evaluateThreshold]
    split
    · split
      · exact createAlert_state _ _ _ _ _ _ _ _ _
      · exact ⟨rfl, rfl⟩
    · exact ⟨rfl, rfl⟩
  · simp only [evaluateSequence]
    split
    · exact ⟨rfl, rfl⟩
    · split
      · split
        · exact ⟨rfl, rfl⟩
        · exact createAlert_state _ _ _ _ _ _ _ _ _
      · exact ⟨rfl, rfl⟩
  · simp only [evaluatePattern]
    split
    · exact createAlert_state _ _ _ _ _ _ _ _ _
    · exact ⟨rfl, rfl⟩
  · simp only [evaluateCorrelation]
    split
    · split
      · exact createAlert_state _ _ _ _ _ _ _ _ _
      · exact ⟨rfl, rfl⟩
    · exact ⟨rfl, rfl⟩

theorem getOrCreateTracker_rules (st : EngineState) (A B C : String)
    (w rT now : Int) :
    ((getOrCreateTracker st A B C w rT now).2.2).rules = st.rules := by
  simp only [getOrCreateTracker]
  split
  · split <;> rfl
  · rfl

/-- With no tracker old enough to be swept, `get_or_create_tracker` is
the pure lookup-extend-or-create step over the unchanged table. -/
theorem getOrCreateTracker_cases (st : EngineState) (A B C : String) (w rT now : Int)
    (hclean : ∀ t ∈ st.trackers, ¬ t.window_end < now - 3600) :
    getOrCreateTracker st A B C w rT now =
      (match findFirst st.trackers (trackerMatches A B C (rT - w * 60)) with
       | some (i, t) =>
           if t.window_end < rT then
             ({ t with window_end := rT + w * 60 }, i,
               { st with trackers := st.trackers.set i { t with window_end := rT + w * 60 } })
           else (t, i, { st with trackers := st.trackers })
       | none =>
           ({ entity_type := A, entity_value := B, hostname := C, window_start := rT,
              window_end := rT + w * 60, event_counts := [], unique_values := [],
              event_ids := [], last_event_time := rT }, st.trackers.length,
             { st with trackers := st.trackers ++
                [{ entity_type := A, entity_value := B, hostname := C, window_start := rT,
                   window_end := rT + w * 60, event_counts := [], unique_values := [],
                   event_ids := [], last_event_time := rT }] })) := by
  have hfil : st.trackers.filter (fun t => !decide (t.window_end < now - 3600)) =
      st.trackers :=
    List.filter_eq_self.mpr (fun t ht => by simpa using hclean t ht)
  simp only [getOrCreateTracker]
  rw [hfil]

theorem trackerMatches_key (A B C : String) (ws : Int) (t : EntityTracker)
    (h : trackerMatches A B C ws t = true) : trackerKeyIs A B C t = true := by
  simp only [trackerMatches, Bool.and_eq_true] at h
  simp only [trackerKeyIs, Bool.and_eq_true]
  exact ⟨⟨h.1.1.1, h.1.1.2⟩, h.1.2⟩

theorem trackerKeyIs_congr (A B C : String) (x y : EntityTracker)
    (h3 : x.entity_type = y.entity_type) (h4 : x.entity_value = y.entity_value)
    (h5 : x.hostname = y.hostname) :
    trackerKeyIs A B C x = trackerKeyIs A B C y := by
  simp [trackerKeyIs, h3, h4, h5]

/-- Under the three pass-through guards, `evaluate_rule`'s final state
is the looked-up/created tracker table with the in-memory update saved
at the found index, and any rule-table change preserves every `logic`. -/
theorem evaluateRule_shape (rule : DetectionRule) (e : SecurityEvent)
    (s1 s2 : Bool) (st : EngineState) (now : Int)
    (tracker : EntityTracker) (idx : Nat) (st1 : EngineState)
    (hg1 : (!(rule.logic.event_ids.getD []).isEmpty &&
        !(rule.logic.event_ids.getD []).contains e.event_id) = false)
    (hg2 : systemExcluded rule.logic s1 s2 = false)
    (hent : entityTruthy (getEntityValue e (rule.logic.track_by.getD "user_name")) = true)
    (hgoc : getOrCreateTracker st (pyUpper (rule.logic.track_by.getD "user_name"))
        ((getEntityValue e (rule.logic.track_by.getD "user_name")).getD "")
        e.hostname (rule.logic.window_minutes.getD 10) e.timestamp now =
        (tracker, idx, st1)) :
    (evaluateRule rule e s1 s2 st now).2.trackers =
        st1.trackers.set idx (updatedTracker rule e tracker) ∧
      (evaluateRule rule e s1 s2 st now).2.rules.map (fun r => r.logic) =
        st.rules.map (fun r => r.logic) := by
  have hrules1 : st1.rules = st.rules := by
    have := getOrCreateTracker_rules st (pyUpper (rule.logic.track_by.getD "user_name"))
      ((getEntityValue e (rule.logic.track_by.getD "user_name")).getD "")
      e.hostname (rule.logic.window_minutes.getD 10) e.timestamp now
    rw [hgoc] at this
    exact this
  simp only [evaluateRule, hg1, hg2, hent, hgoc, Bool.not_true, Bool.false_eq_true,
    if_false]
  have hd := dispatch_state rule e (updatedTracker rule e tracker)
    { st1 with trackers := st1.trackers.set idx (updatedTracker rule e tracker) } now
  constructor
  · split
    · exact hd.1.1
    · split
      · exact hd.2.1.1
      · split
        · exact hd.2.2.1.1
        · split
          · exact hd.2.2.2.1
          · rfl
  · rw [← hrules1]
    split
    · exact hd.1.2
    · split
      · exact hd.2.1.2
      · split
        · exact hd.2.2.1.2
        · split
          · exact hd.2.2.2.2
          · rfl

/-- One matching, non-excluded evaluation of a rule adds exactly one to
the entity key's per-event-id counter and appends the event's database
id exactly once — whatever the tracker table already holds; the
updated table stays inside the retention horizon, and rule `logic`s
survive. -/
theorem evaluateRule_increments (rule : DetectionRule) (e : SecurityEvent)
    (s1 s2 : Bool) (st : EngineState) (now : Int) (A B C : String)
    (hA : A = pyUpper (rule.logic.track_by.getD "user_name"))
    (hB : B = (getEntityValue e (rule.logic.track_by.getD "user_name")).getD "")
    (hC : C = e.hostname)
    (hg1 : (!(rule.logic.event_ids.getD []).isEmpty &&
        !(rule.logic.event_ids.getD []).contains e.event_id) = false)
    (hg2 : systemExcluded rule.logic s1 s2 = false)
    (hent : entityTruthy (getEntityValue e (rule.logic.track_by.getD "user_name")) = true)
    (hclean : ∀ t ∈ st.trackers, ¬ t.window_end < now - 3600)
    (hts : now - 3600 ≤ e.timestamp)
    (hw : 0 ≤ rule.logic.window_minutes.getD 10) :
    keyCount A B C e.event_id (evaluateRule rule e s1 s2 st now).2.trackers =
        keyCount A B C e.event_id st.trackers + 1 ∧
      keyIdOcc A B C e.id (evaluateRule rule e s1 s2 st now).2.trackers =
        keyIdOcc A B C e.id st.trackers + 1 ∧
      (∀ t ∈ (evaluateRule rule e s1 s2 st now).2.trackers,
        ¬ t.window_end < now - 3600) ∧
      (evaluateRule rule e s1 s2 st now).2.rules.map (fun r => r.logic) =
        st.rules.map (fun r => r.logic) := by
  subst hA hB hC
  rcases hgoc : getOrCreateTracker st (pyUpper (rule.logic.track_by.getD "user_name"))
      ((getEntityValue e (rule.logic.track_by.getD "user_name")).getD "")
      e.hostname (rule.logic.window_minutes.getD 10) e.timestamp now with
    ⟨tracker, idx, st1⟩
  obtain ⟨hsh, hrl⟩ := evaluateRule_shape rule e s1 s2 st now tracker idx st1
    hg1 hg2 hent hgoc
  rw [getOrCreateTracker_cases st _ _ _ _ _ _ hclean] at hgoc
  obtain ⟨hcnt, hocc, hty, htv, hhn, hwe⟩ := updatedTracker_fields rule e tracker
  rw [hsh]
  rcases hff : findFirst st.trackers
      (trackerMatches (pyUpper (rule.logic.track_by.getD "user_name"))
        ((getEntityValue e (rule.logic.track_by.getD "user_name")).getD "")
        e.hostname
        (e.timestamp - rule.logic.window_minutes.getD 10 * 60)) with
    _ | ⟨i, t⟩
  · -- `none`: a fresh tracker is appended and then saved at the last slot
    rw [hff] at hgoc
    simp only [Prod.mk.injEq] at hgoc
    obtain ⟨htr, hidx, hst1⟩ := hgoc
    have h1 : st1.trackers = st.trackers ++ [tracker] := by rw [← hst1, htr]
    have h2 : idx = st.trackers.length := hidx.symm
    have hkey : trackerKeyIs (pyUpper (rule.logic.track_by.getD "user_name"))
        ((getEntityValue e (rule.logic.track_by.getD "user_name")).getD "")
        e.hostname tracker = true := by
      rw [← htr]; simp [trackerKeyIs]
    have hcnt0 : tracker.getEventCount e.event_id = 0 := by rw [← htr]; rfl
    have hocc0 : tracker.event_ids.count e.id = 0 := by rw [← htr]; rfl
    have hwef : tracker.window_end =
        e.timestamp + rule.logic.window_minutes.getD 10 * 60 := by rw [← htr]
    rw [h1, h2, set_append_last]
    refine ⟨?_, ?_, ?_, hrl⟩
    · rw [keyCount, keyCount, keySum_append_last _ _ _ _ _ _
        (by rw [trackerKeyIs_congr _ _ _ _ tracker hty htv hhn]; exact hkey),
        hcnt, hcnt0]
    · rw [keyIdOcc, keyIdOcc, keySum_append_last _ _ _ _ _ _
        (by rw [trackerKeyIs_congr _ _ _ _ tracker hty htv hhn]; exact hkey),
        hocc, hocc0]
    · intro x hx
      rcases List.mem_append.mp hx with hmem | hmem
      · exact hclean x hmem
      · have hxe : x = updatedTracker rule e tracker := by simpa using hmem
        rw [hxe, hwe, hwef]
        omega
  · -- `some`: the found tracker (possibly window-extended) is updated in place
    rw [hff] at hgoc
    obtain ⟨hget, hpred⟩ := findFirst_spec _ _ _ _ hff
    have hkeyt := trackerMatches_key _ _ _ _ _ hpred
    by_cases hext : t.window_end < e.timestamp
    · simp only [hext, if_true, ite_true, Prod.mk.injEq] at hgoc
      obtain ⟨htr, hidx, hst1⟩ := hgoc
      have h1 : st1.trackers = st.trackers.set i tracker := by rw [← hst1, htr]
      have h2 : idx = i := hidx.symm
      have hkey : trackerKeyIs (pyUpper (rule.logic.track_by.getD "user_name"))
          ((getEntityValue e (rule.logic.track_by.getD "user_name")).getD "")
          e.hostname tracker = true := by rw [← htr]; exact hkeyt
      have hcnt1 : tracker.getEventCount e.event_id = t.getEventCount e.event_id := by
        rw [← htr]
        rfl
      have hocc1 : tracker.event_ids.count e.id = t.event_ids.count e.id := by
        rw [← htr]
      have hwext : tracker.window_end =
          e.timestamp + rule.logic.window_minutes.getD 10 * 60 := by rw [← htr]
      rw [h1, h2, List.set_set]
      refine ⟨?_, ?_, ?_, hrl⟩
      · exact keySum_set _ _ _ _ st.trackers i t (updatedTracker rule e tracker)
          hget hkeyt
          (by rw [trackerKeyIs_congr _ _ _ _ tracker hty htv hhn]; exact hkey)
          (by rw [hcnt, hcnt1])
      · exact keySum_set _ _ _ _ st.trackers i t (updatedTracker rule e tracker)
          hget hkeyt
          (by rw [trackerKeyIs_congr _ _ _ _ tracker hty htv hhn]; exact hkey)
          (by rw [hocc, hocc1])
      · intro x hx
        rcases List.mem_or_eq_of_mem_set hx with hmem | heq
        · exact hclean x hmem
        · rw [heq, hwe, hwext]
          omega
    · simp only [hext, if_false, ite_false, Prod.mk.injEq] at hgoc
      obtain ⟨htr, hidx, hst1⟩ := hgoc
      have h1 : st1.trackers = st.trackers := by rw [← hst1]
      have h2 : idx = i := hidx.symm
      have hkey : trackerKeyIs (pyUpper (rule.logic.track_by.getD "user_name"))
          ((getEntityValue e (rule.logic.track_by.getD "user_name")).getD "")
          e.hostname tracker = true := by rw [← htr]; exact hkeyt
      have hcnt1 : tracker.getEventCount e.event_id = t.getEventCount e.event_id := by
        rw [← htr]
      have hocc1 : tracker.event_ids.count e.id = t.event_ids.count e.id := by
        rw [← htr]
      have hwext : tracker.window_end = t.window_end := by rw [← htr]
      rw [h1, h2]
      refine ⟨?_, ?_, ?_, hrl⟩
      · exact keySum_set _ _ _ _ st.trackers i t (updatedTracker rule e tracker)
          hget hkeyt
          (by rw [trackerKeyIs_congr _ _ _ _ tracker hty htv hhn]; exact hkey)
          (by rw [hcnt, hcnt1])
      · exact keySum_set _ _ _ _ st.trackers i t (updatedTracker rule e tracker)
          hget hkeyt
          (by rw [trackerKeyIs_congr _ _ _ _ tracker hty htv hhn]; exact hkey)
          (by rw [hocc, hocc1])
      · intro x hx
        rcases List.mem_or_eq_of_mem_set hx with hmem | heq
        · exact hclean x hmem
        · have htm : t ∈ st.trackers := List.mem_iff_getElem?.mpr ⟨i, hget⟩
          have := hclean t htm
          rw [heq, hwe, hwext]
          exact this

/-- With a single loaded rule, `process_event` on a non-noise event
reaches exactly one `evaluate_rule` call and returns its state. -/
theorem processEvent_single (st : EngineState) (e : SecurityEvent) (now : Int)
    (rule : DetectionRule) (hr : st.rules = [rule])
    (hnn : NOISE_EVENT_IDS.contains e.event_id = false) :
    (processEvent st e now).2 =
      (evaluateRule rule e (isSystemAccount e.user_name)
        (isSystemAccount e.target_user_name) st now).2 := by
  unfold processEvent
  rw [hnn, hr]
  simp only [Bool.false_eq_true, if_false, List.foldl_cons, List.foldl_nil]
  rcases hev : evaluateRule rule e (isSystemAccount e.user_name)
      (isSystemAccount e.target_user_name) st now with ⟨a?, st'⟩
  cases a? <;> simp [hev]

theorem map_logic_singleton (l : List DetectionRule) (lg : RuleLogic)
    (h : l.map (fun r => r.logic) = [lg]) : ∃ r, l = [r] ∧ r.logic = lg := by
  cases l with
  | nil => simp at h
  | cons a rest =>
      cases rest with
      | nil =>
          simp at h
          exact ⟨a, rfl, h⟩
      | cons b rest2 => simp at h

/-- C8: `process_event` is not idempotent over tracker state.  For any
non-noise event matching the single loaded rule and resolving to an
entity, one processing adds exactly 1 to the entity's per-event-id
counter and appends the event's database id once; processing the same
event a second time adds 1 and appends again (totals +2) — occurrences
are never deduplicated by event id.  (`hclean` rules out the unrelated
1-hour retention sweep removing pre-existing trackers; the run's own
trackers always survive it.) -/
theorem C8_processEvent_not_idempotent (rule : DetectionRule) (e : SecurityEvent)
    (st : EngineState) (now : Int) (A B C : String)
    (hA : A = pyUpper (rule.logic.track_by.getD "user_name"))
    (hB : B = (getEntityValue e (rule.logic.track_by.getD "user_name")).getD "")
    (hC : C = e.hostname)
    (hr : st.rules = [rule])
    (hnn : NOISE_EVENT_IDS.contains e.event_id = false)
    (hg1 : (!(rule.logic.event_ids.getD []).isEmpty &&
        !(rule.logic.event_ids.getD []).contains e.event_id) = false)
    (hg2 : systemExcluded rule.logic (isSystemAccount e.user_name)
        (isSystemAccount e.target_user_name) = false)
    (hent : entityTruthy (getEntityValue e (rule.logic.track_by.getD "user_name")) = true)
    (hclean : ∀ t ∈ st.trackers, ¬ t.window_end < now - 3600)
    (hts : now - 3600 ≤ e.timestamp)
    (hw : 0 ≤ rule.logic.window_minutes.getD 10) :
    keyCount A B C e.event_id (processEvent st e now).2.trackers =
        keyCount A B C e.event_id st.trackers + 1 ∧
      keyIdOcc A B C e.id (processEvent st e now).2.trackers =
        keyIdOcc A B C e.id st.trackers + 1 ∧
      keyCount A B C e.event_id
          (processEvent (processEvent st e now).2 e now).2.trackers =
        keyCount A B C e.event_id st.trackers + 2 ∧
      keyIdOcc A B C e.id
          (processEvent (processEvent st e now).2 e now).2.trackers =
        keyIdOcc A B C e.id st.trackers + 2 := by
  have h1 := processEvent_single st e now rule hr hnn
  obtain ⟨hc1, ho1, hcl1, hrl1⟩ := evaluateRule_increments rule e
    (isSystemAccount e.user_name) (isSystemAccount e.target_user_name) st now
    A B C hA hB hC hg1 hg2 hent hclean hts hw
  rw [h1]
  have hrlA : ((evaluateRule rule e (isSystemAccount e.user_name)
      (isSystemAccount e.target_user_name) st now).2).rules.map (fun r => r.logic) =
      [rule.logic] := by
    rw [hrl1, hr]
    rfl
  obtain ⟨r2, hr2, hlog2⟩ := map_logic_singleton _ _ hrlA
  have h2 := processEvent_single _ e now r2 hr2 hnn
  rw [h2]
  obtain ⟨hc2, ho2, -, -⟩ := evaluateRule_increments r2 e
    (isSystemAccount e.user_name) (isSystemAccount e.target_user_name) _ now
    A B C (by rw [hA, hlog2]) (by rw [hB, hlog2]) hC
    (by rw [hlog2]; exact hg1) (by rw [hlog2]; exact hg2)
    (by rw [hlog2]; exact hent) hcl1 hts (by rw [hlog2]; exact hw)
  exact ⟨hc1, ho1, by omega, by omega⟩

/-- Witness for C8: re-processing event 1 through the `c4rule` state
doubles the tracked count and duplicates the stored event id. -/
theorem C8_witness :
    keyCount "USER_NAME" "alice" "ws1" 4625
        (processEvent c4state (c4event 1) 2000).2.trackers =
      keyCount "USER_NAME" "alice" "ws1" 4625 c4state.trackers + 1 ∧
    keyIdOcc "USER_NAME" "alice" "ws1" 101
        (processEvent c4state (c4event 1) 2000).2.trackers =
      keyIdOcc "USER_NAME" "alice" "ws1" 101 c4state.trackers + 1 ∧
    keyCount "USER_NAME" "alice" "ws1" 4625
        (processEvent (processEvent c4state (c4event 1) 2000).2 (c4event 1) 2000).2.trackers =
      keyCount "USER_NAME" "alice" "ws1" 4625 c4state.trackers + 2 ∧
    keyIdOcc "USER_NAME" "alice" "ws1" 101
        (processEvent (processEvent c4state (c4event 1) 2000).2 (c4event 1) 2000).2.trackers =
      keyIdOcc "USER_NAME" "alice" "ws1" 101 c4state.trackers + 2 :=
  C8_processEvent_not_idempotent c4rule (c4event 1) c4state 2000
    "USER_NAME" "alice" "ws1" (by decide) (by decide) (by decide) rfl
    (by decide) (by decide) (by decide) (by decide)
    (by intro t ht; simp [c4state] at ht) (by decide) (by decide)

/-! ## Executor bounds (C2) and unknown-field handling (C3) -/

theorem djangoSlice_ok (rows : List PRow) (start stop : Int) (out : List PRow)
    (h : djangoSlice rows start stop = .ok out) :
    0 ≤ start ∧ 0 ≤ stop ∧ out.length ≤ stop.toNat := by
  unfold djangoSlice at h
  split at h
  · simp at h
  · rename_i hcond
    simp only [Bool.or_eq_true, decide_eq_true_eq, not_or] at hcond
    simp only [Except.ok.injEq] at h
    subst h
    refine ⟨by omega, by omega, ?_⟩
    have hd := List.length_drop start.toNat (rows.take stop.toNat)
    have htk := List.length_take stop.toNat rows
    omega

theorem executeSearch_bound (store : List SecurityEvent) (now : Int) (a : SearchAst)
    (h0 : a.offset = 0) (rows : List PRow)
    (hok : executeSearch store now a = .ok rows) : (rows.length : Int) ≤ a.limit := by
  simp only [executeSearch] at hok
  split at hok
  · exact absurd hok (by simp)
  · rename_i rows0 hsl
    split at hok
    · exact absurd hok (by simp)
    · simp only [Except.ok.injEq] at hok
      subst hok
      obtain ⟨hs, ht, hb⟩ := djangoSlice_ok _ _ _ _ hsl
      rw [h0] at ht hb
      omega

theorem executeHunt_bound (store : List SecurityEvent) (now : Int) (a : HuntAst)
    (rows : List PRow) (hok : executeHunt store now a = .ok rows) :
    (rows.length : Int) ≤ a.limit := by
  simp only [executeHunt] at hok
  split at hok
  · split at hok
    · exact absurd hok (by simp)
    · split at hok
      · exact absurd hok (by simp)
      · simp only [Except.ok.injEq] at hok
        subst hok
        rename_i hsl
        obtain ⟨hs, ht, hb⟩ := djangoSlice_ok _ _ _ _ hsl
        omega
  · split at hok
    · exact absurd hok (by simp)
    · simp only [Except.ok.injEq] at hok
      subst hok
      rename_i hsl
      obtain ⟨hs, ht, hb⟩ := djangoSlice_ok _ _ _ _ hsl
      omega

theorem executeAggregate_ok (store : List SecurityEvent) (now : Int) (a : AggAst)
    (rows : List PRow) (hok : executeAggregate store now a = .ok rows) :
    rows = [] := by
  simp only [executeAggregate] at hok
  split at hok
  · exact absurd hok (by simp)
  · split at hok
    · split at hok
      · exact absurd hok (by simp)
      · split at hok
        · exact absurd hok (by simp)
        · simp only [Except.ok.injEq] at hok
          subst hok
          rfl
    · simp only [Except.ok.injEq] at hok
      subst hok
      rfl

theorem applyLimitOverride_search (a : SearchAst) (lim : Option Int) :
    ∃ a', applyLimitOverride (.search a) lim = .search a' ∧ a'.offset = a.offset := by
  cases lim with
  | none => exact ⟨a, rfl, rfl⟩
  | some l =>
      simp only [applyLimitOverride]
      split
      · split
        · exact ⟨_, rfl, rfl⟩
        · exact ⟨a, rfl, rfl⟩
      · exact ⟨a, rfl, rfl⟩

theorem applyLimitOverride_hunt (a : HuntAst) (lim : Option Int) :
    ∃ a', applyLimitOverride (.hunt a) lim = .hunt a' := by
  cases lim with
  | none => exact ⟨a, rfl⟩
  | some l =>
      simp only [applyLimitOverride]
      split
      · split
        · exact ⟨_, rfl⟩
        · exact ⟨a, rfl⟩
      · exact ⟨a, rfl⟩

theorem applyLimitOverride_agg (a : AggAst) (lim : Option Int)
    (ha : a.limit = none) :
    ∃ a', applyLimitOverride (.agg a) lim = .agg a' ∧
      (a'.limit = none ∨ ∃ l, a'.limit = some l ∧ 1 ≤ l) := by
  cases lim with
  | none => exact ⟨a, rfl, Or.inl ha⟩
  | some l =>
      simp only [applyLimitOverride, ha]
      split
      · rename_i hcond
        simp only [Bool.and_eq_true, decide_eq_true_eq] at hcond
        exact ⟨_, rfl, Or.inr ⟨l, rfl, hcond.1⟩⟩
      · exact ⟨a, rfl, Or.inl ha⟩

/-- C2: whatever the store, the executor never returns more rows than
the limit carried in the (caller-override-adjusted) AST, for all three
commands; for parsed ASTs (`offset = 0` on SEARCH, no pre-existing
`limit` key on AGGREGATE) the bound is exactly the parsed limit or, for
a fresh AGGREGATE, the validated caller limit. -/
theorem C2_executor_respects_limit (store : List SecurityEvent) (now : Int)
    (ast : PqlAst) (lim : Option Int)
    (hoff : ∀ a, ast = PqlAst.search a → a.offset = 0)
    (hagg : ∀ a, ast = PqlAst.agg a → a.limit = none) :
    ∀ (L : Int) (rows : List PRow),
      astLimit (applyLimitOverride ast lim) = some L →
      execute store now (applyLimitOverride ast lim) = .ok rows →
      (rows.length : Int) ≤ L := by
  intro L rows hL hok
  cases ast with
  | search a =>
      obtain ⟨a', he, hoff'⟩ := applyLimitOverride_search a lim
      rw [he] at hL hok
      simp only [astLimit, Option.some.injEq] at hL
      simp only [execute] at hok
      rw [← hL]
      exact executeSearch_bound store now a' (by rw [hoff']; exact hoff a rfl) rows hok
  | hunt a =>
      obtain ⟨a', he⟩ := applyLimitOverride_hunt a lim
      rw [he] at hL hok
      simp only [astLimit, Option.some.injEq] at hL
      simp only [execute] at hok
      rw [← hL]
      exact executeHunt_bound store now a' rows hok
  | agg a =>
      have ha := hagg a rfl
      obtain ⟨a', he, hlim⟩ := applyLimitOverride_agg a lim ha
      rw [he] at hL hok
      simp only [astLimit] at hL
      simp only [execute] at hok
      have hrows := executeAggregate_ok store now a' rows hok
      rcases hlim with hnone | ⟨l, hsome, hl⟩
      · rw [hnone] at hL
        simp at hL
      · rw [hsome] at hL
        simp only [Option.some.injEq] at hL
        rw [hrows]
        simp
        omega

/-- Witness for C2: a caller limit of 3 on a default SEARCH over a
five-event store returns three rows. -/
theorem C2_witness :
    ((List.map PRow.ev [c4event 5, c4event 4, c4event 3]).length : Int) ≤ 3 :=
  C2_executor_respects_limit
    [c4event 1, c4event 2, c4event 3, c4event 4, c4event 5] 0
    (.search {}) (some 3)
    (by intro a h; cases h; rfl) (by intro a h; cases h)
    3 (List.map PRow.ev [c4event 5, c4event 4, c4event 3]) (by decide) rfl

/-- Deletion of the condition entries whose (alias-mapped) field is not
in the event schema; logical-connective entries stay, mirroring how the
`_build_q_objects` fold steps over them. -/
def dropUnknown (conds : List CondItem) : List CondItem :=
  conds.filter (fun item =>
    match item with
    | .cond f _ _ _ => isValidField (mapField f)
    | .logical _ => true)

theorem buildQGo_dropUnknown (now : Int) :
    ∀ (conds : List CondItem) (q : Option QExpr) (cur : String) (hv : Bool),
      buildQGo now conds q cur hv = buildQGo now (dropUnknown conds) q cur hv := by
  intro conds
  induction conds with
  | nil => intro q cur hv; rfl
  | cons item rest ih =>
      intro q cur hv
      cases item with
      | logical op =>
          have hd : dropUnknown (CondItem.logical op :: rest) =
              CondItem.logical op :: dropUnknown rest := by
            simp [dropUnknown]
          rw [hd]
          simp only [buildQGo]
          exact ih q op hv
      | cond f op v vs =>
          by_cases hval : isValidField (mapField f) = true
          · have hd : dropUnknown (CondItem.cond f op v vs :: rest) =
                CondItem.cond f op v vs :: dropUnknown rest := by
              simp [dropUnknown, hval]
            rw [hd]
            simp only [buildQGo, hval, Bool.not_true, Bool.false_eq_true, if_false]
            cases condQ now (mapField f) op v vs with
            | none => exact ih q cur true
            | some qc =>
                cases q with
                | none => exact ih (some qc) cur true
                | some q0 => exact ih _ cur true
          · have hval' : isValidField (mapField f) = false := by
              simpa using hval
            have hd : dropUnknown (CondItem.cond f op v vs :: rest) =
                dropUnknown rest := by
              simp [dropUnknown, hval']
            rw [hd]
            simp only [buildQGo, hval', Bool.not_false, if_true]
            exact ih q cur hv

theorem buildQGo_allUnknown (now : Int) :
    ∀ (conds : List CondItem),
      (∀ f op v vs, CondItem.cond f op v vs ∈ conds →
        isValidField (mapField f) = false) →
      ∀ (q : Option QExpr) (cur : String) (hv : Bool),
        buildQGo now conds q cur hv = (q, hv) := by
  intro conds
  induction conds with
  | nil => intro _ q cur hv; rfl
  | cons item rest ih =>
      intro hall q cur hv
      have hrest : ∀ f op v vs, CondItem.cond f op v vs ∈ rest →
          isValidField (mapField f) = false := by
        intro f op v vs hm
        exact hall f op v vs (List.mem_cons_of_mem _ hm)
      cases item with
      | logical op =>
          simp only [buildQGo]
          exact ih hrest q op hv
      | cond f op v vs =>
          have hv' : isValidField (mapField f) = false :=
            hall f op v vs (List.mem_cons_self _ _)
          simp only [buildQGo, hv', Bool.not_false, if_true]
          exact ih hrest q cur hv

theorem buildQObjects_allUnknown (now : Int) (conds : List CondItem)
    (hne : conds ≠ [])
    (hall : ∀ f op v vs, CondItem.cond f op v vs ∈ conds →
      isValidField (mapField f) = false) :
    buildQObjects now conds = (none, false) := by
  unfold buildQObjects
  rw [if_neg (by simpa using hne)]
  exact buildQGo_allUnknown now conds hall none "AND" false

theorem buildQObjects_dropUnknown (now : Int) (conds : List CondItem)
    (hsome : ∃ f op v vs, CondItem.cond f op v vs ∈ conds ∧
      isValidField (mapField f) = true) :
    buildQObjects now conds = buildQObjects now (dropUnknown conds) := by
  obtain ⟨f, op, v, vs, hm, hval⟩ := hsome
  have hne : conds ≠ [] := by
    intro h
    rw [h] at hm
    exact absurd hm (List.not_mem_nil _)
  have hmem' : CondItem.cond f op v vs ∈ dropUnknown conds := by
    apply List.mem_filter.mpr
    exact ⟨hm, by simpa using hval⟩
  have hne' : dropUnknown conds ≠ [] := by
    intro h
    rw [h] at hmem'
    exact absurd hmem' (List.not_mem_nil _)
  unfold buildQObjects
  rw [if_neg (by simpa using hne), if_neg (by simpa using hne')]
  exact buildQGo_dropUnknown now conds none "AND" false

/-- C3 (amended): conditions with unknown (alias-mapped) fields are
dropped by the query builder — the built `Q` object, the validity flag
and all three executors behave as if those conditions were deleted
(provided some known-field condition remains); and a query whose every
condition references an unknown field returns an empty result set — no
error, no unfiltered scan — provided its other clauses are themselves
executable: nonnegative LIMIT, known ORDER BY / GROUP BY fields, and a
COUNT aggregation when an AGGREGATE groups. -/
theorem C3_unknown_fields_dropped (now : Int) (store : List SecurityEvent)
    (conds : List CondItem) (sa : SearchAst) (ha : HuntAst) (ag : AggAst) :
    ((∃ f op v vs, CondItem.cond f op v vs ∈ conds ∧
        isValidField (mapField f) = true) →
      buildQObjects now conds = buildQObjects now (dropUnknown conds) ∧
      executeSearch store now { sa with conditions := conds } =
        executeSearch store now { sa with conditions := dropUnknown conds } ∧
      executeHunt store now { ha with conditions := conds } =
        executeHunt store now { ha with conditions := dropUnknown conds } ∧
      executeAggregate store now { ag with conditions := conds } =
        executeAggregate store now { ag with conditions := dropUnknown conds }) ∧
    (conds ≠ [] →
      (∀ f op v vs, CondItem.cond f op v vs ∈ conds →
        isValidField (mapField f) = false) →
      (0 ≤ sa.limit → sa.offset = 0 →
        isValidField (searchOrderField sa) = true →
        executeSearch store now { sa with conditions := conds } = .ok []) ∧
      (0 ≤ ha.limit →
        (∀ g, ha.group_by = some g → isValidField (mapField g) = true) →
        executeHunt store now { ha with conditions := conds } = .ok []) ∧
      ((∀ g, ag.group_by = some g → isValidField (mapField g) = true ∧
          ag.aggregations.contains "COUNT" = true) →
        executeAggregate store now { ag with conditions := conds } = .ok [])) := by
  constructor
  · intro hsome
    have hq := buildQObjects_dropUnknown now conds hsome
    refine ⟨hq, ?_, ?_, ?_⟩
    · simp only [executeSearch, searchOrderField]
      rw [hq]
    · simp only [executeHunt]
      rw [hq]
    · simp only [executeAggregate]
      rw [hq]
  · intro hne hall
    have hq := buildQObjects_allUnknown now conds hne hall
    refine ⟨?_, ?_, ?_⟩
    · intro hlim hoff hord
      have hsl : djangoSlice ([] : List PRow) sa.offset (sa.offset + sa.limit) =
          .ok [] := by
        unfold djangoSlice
        rw [if_neg (by simp; omega)]
        simp
      simp only [executeSearch, hq, applyConditions, Bool.not_false, if_true,
        searchOrderField] at *
      simp only [stableSortBy, List.foldl_nil, List.map_nil, ite_self]
      rw [hsl]
      simp only [hord, Bool.not_true, Bool.false_eq_true, if_false]
    · intro hlim hgroup
      simp only [executeHunt, hq, applyConditions, Bool.not_false, if_true]
      cases hg : ha.group_by with
      | none =>
          simp only [defaultOrder, stableSortBy, List.foldl_nil, List.map_nil]
          unfold djangoSlice
          rw [if_neg (by simp; omega)]
          simp
      | some g =>
          have hval := hgroup g hg
          simp only [hval, Bool.not_true, Bool.false_eq_true, if_false,
            huntGroups, List.foldl_nil, List.map_nil, stableSortBy]
          unfold djangoSlice
          rw [if_neg (by simp; omega)]
          simp
    · intro hgroup
      simp only [executeAggregate, hq]
      cases hg : ag.group_by with
      | none => simp [defaultOrder, stableSortBy]
      | some g =>
          obtain ⟨hval, hcount⟩ := hgroup g hg
          simp [hval, hcount, aggGroups, stableSortBy]
          simpa using hcount

/-- C3 counterexample to the claim as stated: a SEARCH whose only
condition references the unknown field `bogus_field` but whose parsed
`LIMIT` is `-1` fails (Django refuses a negative slice bound) instead
of returning an empty result set. -/
theorem C3_counterexample :
    isValidField (mapField "bogus_field") = false ∧
      executeSearch [c4event 1] 0
          { conditions := [CondItem.cond "bogus_field" "=" (.pint 1) []],
            limit := -1 } =
        .error "Negative indexing is not supported" :=
  ⟨by decide, rfl⟩

/-- Witness for C3: over a non-empty store, `SEARCH WHERE bogus_field
= 1` returns an empty result set, and a mixed known/unknown condition
list builds the same filter as the known conditions alone. -/
theorem C3_witness :
    executeSearch [c4event 1] 0
        { conditions := [CondItem.cond "bogus_field" "=" (.pint 1) []] } = .ok [] ∧
      buildQObjects 0
          [CondItem.cond "bogus_field" "=" (.pint 1) [], CondItem.logical "AND",
            CondItem.cond "severity" "=" (.pstr "HIGH") []] =
        buildQObjects 0
          (dropUnknown
            [CondItem.cond "bogus_field" "=" (.pint 1) [], CondItem.logical "AND",
              CondItem.cond "severity" "=" (.pstr "HIGH") []]) :=
  ⟨((C3_unknown_fields_dropped 0 [c4event 1]
        [CondItem.cond "bogus_field" "=" (.pint 1) []] {} {} {}).2 (by decide)
      (by intro f op v vs h; simp at h; rw [h.1]; decide)).1
    (by decide) rfl (by decide),
   ((C3_unknown_fields_dropped 0 [c4event 1]
        [CondItem.cond "bogus_field" "=" (.pint 1) [], CondItem.logical "AND",
          CondItem.cond "severity" "=" (.pstr "HIGH") []] {} {} {}).1
      ⟨"severity", "=", .pstr "HIGH", [], by simp, by decide⟩).1⟩

end DKP
